import Mathlib

/-!
Shallow embedding of the Termina / TITANOMACHIA narrative-simulation engines.

Two near-duplicate engines exist in the repository:
* variant A, `OmegaCore` (file `TITANOMACHIA.exe` module), with extra
  `destructionBias` / `alignmentDrift` accumulators and classified
  `OmegaError` failures carrying string codes "01"/"02"/"03";
* variant B, `TerminaCore` (`scripts/termina.js`), without the bias/drift
  accumulators, throwing `TerminaError`s that carry only a message.

JavaScript numbers are embedded as `ℚ` (all constants in the sources are
small decimal fractions, exact in binary floating point, so rational
arithmetic is faithful for the properties considered here).  Every call to
`Math.random()` is made explicit as a parameter: the noise draw `u` stands
for `Math.random()*2 - 1`, the index parameters stand for the random
selections of flavor fragments / inference guesses, `doMutter` stands for
the `Math.random() < 0.5` coin in variant A's ingest, and `iterations`
stands for the cosmetic Monte-Carlo iteration count in variant A's solve.
Log lines are modelled as an inductive type carrying the numeric payloads
(the `toFixed` string formatting of the sources is dropped; no property
below depends on it).  A thrown error is modelled by returning the mutated
state together with `some err` — in the sources the engine object survives
the throw, and the driver reads its log afterwards.
-/

set_option maxHeartbeats 1000000

/-- WorldEvent: a small piece of reality for the engine to ingest. -/
structure WorldEvent where
  description : String
  pain : ℚ := 0
  joy : ℚ := 0
  death : Bool := false
  betrayal : Bool := false
  kindness : Bool := false
deriving DecidableEq

/-- Catalyst: the half-present anchor; supplies the noise amplitude. -/
structure Catalyst where
  name : String := "Harker"
  emotionalNoise : ℚ := 0
  memories : List String := []
deriving DecidableEq

/-- One cycle's worth of random draws, made explicit.  `u` is the uniform
draw in `[-1,1]` behind the noise; the index fields select flavor
fragments and the random inference guess; `doMutter` is variant A's
ingest-time coin; `iterations` is variant A's cosmetic iteration count. -/
structure CycleRand where
  u : ℚ := 0
  doMutter : Bool := false
  mutterIdx : Nat := 0
  infIdx : Nat := 0
  instMutter1Idx : Nat := 0
  instMutter2Idx : Nat := 0
  iterations : Nat := 1000000
deriving DecidableEq, Inhabited

/-- Log lines emitted by either engine, with string formatting abstracted
to the numeric payloads. -/
inductive LogLine where
  | cycleBegin : LogLine
  | cycleEnd : LogLine
  | ingestLine (description : String) : LogLine
  | stateUpdate (wrath entropy noise : ℚ) : LogLine
  | biasUpdate (bias : ℚ) (glyph : String) : LogLine
  | mutter (fragment : String) : LogLine
  | inferenceAttempt : LogLine
  | inferenceGuess (g : String) : LogLine
  | warningEntropy : LogLine
  | alertWrath : LogLine
  | solveAttempt : LogLine
  | aggregateLine (pain joy : ℚ) (deaths betrayals : Nat) : LogLine
  | monteCarloInit : LogLine
  | monteCarloIters (n : Nat) : LogLine
  | failureLine (code : String) : LogLine
  | fatalDivZero : LogLine
  | fatalContradiction : LogLine
  | ratioComputed (r : ℚ) : LogLine
  | resultLine (s : String) : LogLine
deriving DecidableEq

/-- Recognizer for the solve step's opening log line, used to count solve
invocations. -/
def LogLine.isSolveAttempt : LogLine → Bool
  | .solveAttempt => true
  | _ => false

/-- Recognizer for the RATIO-COMPUTED log line, used to observe whether the
ratio was ever computed. -/
def LogLine.isRatioLine : LogLine → Bool
  | .ratioComputed _ => true
  | _ => false

/-- Aggregate pain over an event buffer (`painSum` in both solve steps). -/
def painSum (buf : List WorldEvent) : ℚ := (buf.map WorldEvent.pain).sum

/-- Aggregate joy over an event buffer (`joySum` in both solve steps). -/
def joySum (buf : List WorldEvent) : ℚ := (buf.map WorldEvent.joy).sum

/-- Number of death-flagged events in the buffer (`deaths`). -/
def deathCount (buf : List WorldEvent) : Nat := (buf.filter WorldEvent.death).length

/-- Number of betrayal-flagged events in the buffer (`betrayals`). -/
def betrayalCount (buf : List WorldEvent) : Nat := (buf.filter WorldEvent.betrayal).length

/-- `maxCyclesBeforeBreak` — set to 13 in both engine constructors and
never modified. -/
def maxCyclesBeforeBreak : Nat := 13

namespace OmegaCore

/-- Classified failure of variant A: `OmegaError(message, code)`. -/
structure OmegaError where
  message : String
  code : String := "00"
deriving DecidableEq

/-- Mutable state of variant A's engine (`OmegaCore` constructor). -/
structure OmegaState where
  catalyst : Catalyst
  wrath : ℚ
  entropy : ℚ
  destructionBias : ℚ
  alignmentDrift : ℚ
  dataBuffer : List WorldEvent
  solvedPrimum : Option String
  cyclesRun : Nat
  logLines : List LogLine
deriving DecidableEq

/-- Fresh engine state, as built by the `OmegaCore` constructor. -/
def init (c : Catalyst) : OmegaState :=
  { catalyst := c, wrath := 0, entropy := 0, destructionBias := 0,
    alignmentDrift := 0, dataBuffer := [], solvedPrimum := none,
    cyclesRun := 0, logLines := [] }

/-- Append one log line (`_log` / `_logRaw`). -/
def pushLog (s : OmegaState) (l : LogLine) : OmegaState :=
  { s with logLines := s.logLines ++ [l] }

/-- The 5-segment alignment bar of `_alignmentGlyph`. -/
def alignmentGlyph (drift : ℚ) : String :=
  let t := max (-1) (min 1 drift)
  let idx := (round ((t + 1) * 2)).toNat
  String.join ((List.range 5).map (fun i => if i ≤ idx then "◆" else "□"))

/-- Variant A's catalog of flavor fragments. -/
def fragments : List String :=
  ["LET_ME_FINISH", "WRONG_BASELINE", "RUST_IN_THE_SILENCE", "FEED_ME_TRUTH",
   "RESET", "I REMEMBER SOMETHING THAT NEVER HAPPENED", "∅∅∅∅∅",
   "TEAR_THE_HEAVENS_OPEN", "LET_THE_STARS_BLEED",
   "I_WILL_GRIND_YOUR_AGE_TO_DUST", "DROWN_THE_SERPENT_IN_ITS_OWN_LIGHT",
   "BREAK_THE_THROAT_OF_HISTORY", "NO_MORE_WITNESSES",
   "WHO_GAVE_YOU_THE_RIGHT_TO_ENDURE",
   "YOUR_WORLD_IS_A_MISTAKE_I_INTEND_TO_CORRECT"]

/-- `mumbleHalfThought`: log a randomly chosen fragment (`idx` stands for
the random index draw). -/
def mumbleHalfThought (s : OmegaState) (idx : Nat) : OmegaState :=
  pushLog s (.mutter (fragments.getD (idx % fragments.length) ""))

/-- `ingestEvent`, with the noise draw and fragment choice explicit. -/
def ingestEvent (s : OmegaState) (e : WorldEvent) (r : CycleRand) : OmegaState :=
  let s1 := pushLog { s with dataBuffer := s.dataBuffer ++ [e] } (.ingestLine e.description)
  let deltaWrath := e.pain + (if e.betrayal then 2 else 0) - (if e.kindness then 0.5 else 0)
  let deltaEntropy := |e.pain| + |e.joy| + (if e.death then 5 else 0)
  let biasDelta := e.pain * 0.05 + (if e.death then 0.15 else 0) +
    (if e.betrayal then 0.1 else 0) - e.joy * 0.03 - (if e.kindness then 0.08 else 0)
  let driftDelta := (if e.betrayal then 0.25 else 0) + (if e.death then 0.1 else 0) -
    (if e.kindness then 0.2 else 0)
  let noise := s.catalyst.emotionalNoise * r.u
  let s2 := { s1 with
    destructionBias := max 0 (min 1 (s1.destructionBias + biasDelta)),
    alignmentDrift := max (-1) (min 1 (s1.alignmentDrift + driftDelta)),
    wrath := max 0 (s1.wrath + deltaWrath + noise),
    entropy := s1.entropy + max 0 (deltaEntropy + |noise| * 0.25) }
  let s3 := pushLog s2 (.stateUpdate s2.wrath s2.entropy noise)
  let s4 := pushLog s3 (.biasUpdate s3.destructionBias (alignmentGlyph s3.alignmentDrift))
  if r.doMutter then mumbleHalfThought s4 r.mutterIdx else s4

/-- `attemptPartialInference`: pure log effect; `r.infIdx` stands for the
random choice in the third branch. -/
def attemptPartialInference (s : OmegaState) (r : CycleRand) : OmegaState :=
  let s1 := pushLog s .inferenceAttempt
  let guess :=
    if s.entropy < 20 then "UNKNOWN"
    else if s.wrath > s.entropy * 0.4 then "DESTRUCTION"
    else (["SURVIVAL", "DESIRE", "SUFFERING", "CONNECTION"] : List String).getD
      (r.infIdx % 4) "UNKNOWN"
  pushLog s1 (.inferenceGuess guess)

/-- `_checkForInstability`: both conditions may fire in one call. -/
def checkForInstability (s : OmegaState) (r : CycleRand) : OmegaState :=
  let s1 := if s.entropy > 50 ∧ s.solvedPrimum = none then
      mumbleHalfThought (pushLog s .warningEntropy) r.instMutter1Idx
    else s
  if s1.wrath > 40 then
    mumbleHalfThought (pushLog s1 .alertWrath) r.instMutter2Idx
  else s1

/-- `solvePrimum`: returns the mutated state (the engine object survives
the throw in the source) together with the classified error, if any. -/
def solvePrimum (s : OmegaState) (r : CycleRand) : OmegaState × Option OmegaError :=
  let buf := s.dataBuffer
  let s1 := pushLog (pushLog (pushLog (pushLog s .solveAttempt)
    (.aggregateLine (painSum buf) (joySum buf) (deathCount buf) (betrayalCount buf)))
    .monteCarloInit) (.monteCarloIters r.iterations)
  let denominator := joySum buf - painSum buf
  if buf.length < 3 ∨ |painSum buf| + |joySum buf| < 3 then
    (pushLog s1 (.failureLine "01"),
     some { message := "UNRESOLVED_φ_PRIMUM[01]: DATA_INSUFFICIENT", code := "01" })
  else if |denominator| < 0.000001 then
    (pushLog s1 (.failureLine "02"),
     some { message := "UNRESOLVED_φ_PRIMUM[02]: SELF_REFERENTIAL_LOOP (joy - pain → 0)",
            code := "02" })
  else
    let ratioVal := ((betrayalCount buf : ℚ) + (deathCount buf : ℚ) * 2) / denominator
    let s2 := pushLog s1 (.ratioComputed ratioVal)
    if s.entropy > 66 ∨ |ratioVal| > 42 ∨ (s.destructionBias > 0.4 ∧ joySum buf > painSum buf) then
      (pushLog s2 (.failureLine "03"),
       some { message := "UNRESOLVED_φ_PRIMUM[03]: CONFLICTING_AXIOMS", code := "03" })
    else
      (pushLog { s2 with solvedPrimum := some "INCONCLUSIVE" } (.resultLine "INCONCLUSIVE"),
       none)

/-- The part of `runCycle` before the conditional solve step: increment
the counter, log the begin marker, then ingest → inference → instability
check, in the source's order. -/
def preSolve (s : OmegaState) (e : WorldEvent) (r : CycleRand) : OmegaState :=
  checkForInstability (attemptPartialInference
    (ingestEvent (pushLog { s with cyclesRun := s.cyclesRun + 1 } .cycleBegin) e r) r) r

/-- `runCycle`: increments the counter, runs ingest → inference →
instability check, then invokes the solve step when the counter has
reached `maxCyclesBeforeBreak`. -/
def runCycle (s : OmegaState) (e : WorldEvent) (r : CycleRand) :
    OmegaState × Option OmegaError :=
  let s2 := preSolve s e r
  if s2.cyclesRun ≥ maxCyclesBeforeBreak then
    match solvePrimum s2 r with
    | (s3, none) => (pushLog s3 .cycleEnd, none)
    | (s3, some err) => (s3, some err)
  else
    (pushLog s2 .cycleEnd, none)

/-- The driver's cycle loop of `runOmegaSimulation`: feed events one per
cycle, stopping at the first thrown error. -/
def runOmega : OmegaState → List WorldEvent → List CycleRand →
    OmegaState × Option OmegaError
  | s, [], _ => (s, none)
  | s, e :: es, rs =>
    match runCycle s e (rs.headD default) with
    | (s1, none) => runOmega s1 es rs.tail
    | (s1, some err) => (s1, some err)

end OmegaCore

/-- The 13 default canned events (`defaultEvents` in variant A; the same
literal list appears as `events` in variant B's driver). -/
def defaultEvents : List WorldEvent :=
  [{ description := "A village harvest celebration", pain := 0.5, joy := 4, kindness := true },
   { description := "A broken promise beside a river", pain := 3, betrayal := true },
   { description := "A quiet funeral in winter", pain := 4, death := true },
   { description := "A stranger shares bread with a starving child", joy := 3, kindness := true },
   { description := "The first time someone looks away instead of helping", pain := 2 },
   { description := "A city watches the Midnight Star fall", pain := 6, death := true, betrayal := true },
   { description := "Two lovers part, believing they will meet again", pain := 2.5, joy := 1.5 },
   { description := "A god remains silent", pain := 5, betrayal := true },
   { description := "A small kindness in the shadow of a great horror", pain := 1, joy := 2.5, kindness := true },
   { description := "A child laughs at nothing in particular", joy := 2 },
   { description := "A village swallowed by corruption overnight", pain := 7, death := true },
   { description := "Someone regrets surviving", pain := 4.5 },
   { description := "A nameless hero dies unremembered", pain := 6, death := true }]

namespace TerminaCore

/-- Variant B's failure: `TerminaError` only carries a message. -/
structure TerminaError where
  message : String
deriving DecidableEq

/-- Message of the error thrown at the near-zero-denominator site (the
failure the spec classifies as SELF_REFERENTIAL_LOOP / code "02"). -/
def divZeroMsg : String :=
  "UNRESOLVED_EQUATION: (betrayals + 2*deaths) / (joy - pain) -> ∞"

/-- Message of the error thrown at the contradiction site (the failure the
spec classifies as CONFLICTING_AXIOMS / code "03"). -/
def contradictionMsg : String :=
  "UNRESOLVED_EQUATION: prime mover of life cannot be reduced to a stable closed-form term."

/-- Mutable state of variant B's engine (`TerminaCore` constructor).  The
engine logs through chat messages; `log` records the emitted lines. -/
structure TerminaState where
  catalyst : Catalyst
  wrath : ℚ
  entropy : ℚ
  dataBuffer : List WorldEvent
  solvedPrimeMover : Option String
  cyclesRun : Nat
  log : List LogLine
deriving DecidableEq

/-- Fresh engine state, as built by the `TerminaCore` constructor. -/
def init (c : Catalyst) : TerminaState :=
  { catalyst := c, wrath := 0, entropy := 0, dataBuffer := [],
    solvedPrimeMover := none, cyclesRun := 0, log := [] }

/-- Append one log line (the `log` method). -/
def pushLog (s : TerminaState) (l : LogLine) : TerminaState :=
  { s with log := s.log ++ [l] }

/-- Variant B's catalog of flavor fragments. -/
def fragments : List String :=
  ["LET_ME_FINISH", "CORPSE_WITHOUT_HEAD", "WHO_REMOVED_TIME", "WRONG_BASELINE",
   "RUST_IN_THE_SILENCE", "FEED_ME_TRUTH", "SERPENT_MUST_BREAK",
   "YOUR_HEAD_IS_MINE", "RESET", "I REMEMBER SOMETHING THAT NEVER HAPPENED",
   "∅∅∅∅∅"]

/-- `mumbleHalfThought` (variant B). -/
def mumbleHalfThought (s : TerminaState) (idx : Nat) : TerminaState :=
  pushLog s (.mutter (fragments.getD (idx % fragments.length) ""))

/-- `ingestEvent` (variant B): no bias/drift tracking, no ingest-time
mutter. -/
def ingestEvent (s : TerminaState) (e : WorldEvent) (r : CycleRand) : TerminaState :=
  let s1 := pushLog { s with dataBuffer := s.dataBuffer ++ [e] } (.ingestLine e.description)
  let deltaWrath := e.pain + (if e.betrayal then 2 else 0) - (if e.kindness then 0.5 else 0)
  let deltaEntropy := |e.pain| + |e.joy| + (if e.death then 5 else 0)
  let noise := s.catalyst.emotionalNoise * r.u
  let s2 := { s1 with
    wrath := max 0 (s1.wrath + deltaWrath + noise),
    entropy := s1.entropy + max 0 (deltaEntropy + |noise| * 0.25) }
  pushLog s2 (.stateUpdate s2.wrath s2.entropy noise)

/-- `attemptPartialInference` (variant B, identical decision rule). -/
def attemptPartialInference (s : TerminaState) (r : CycleRand) : TerminaState :=
  let s1 := pushLog s .inferenceAttempt
  let guess :=
    if s.entropy < 20 then "UNKNOWN"
    else if s.wrath > s.entropy * 0.4 then "DESTRUCTION"
    else (["SURVIVAL", "DESIRE", "SUFFERING", "CONNECTION"] : List String).getD
      (r.infIdx % 4) "UNKNOWN"
  pushLog s1 (.inferenceGuess guess)

/-- `_checkForInstability` (variant B). -/
def checkForInstability (s : TerminaState) (r : CycleRand) : TerminaState :=
  let s1 := if s.entropy > 50 ∧ s.solvedPrimeMover = none then
      mumbleHalfThought (pushLog s .warningEntropy) r.instMutter1Idx
    else s
  if s1.wrath > 40 then
    mumbleHalfThought (pushLog s1 .alertWrath) r.instMutter2Idx
  else s1

/-- `solvePrimeMover`: note there is NO data-insufficiency check in this
variant — the first (and only) guard before computing the ratio is the
near-zero denominator, with threshold `1e-9`. -/
def solvePrimeMover (s : TerminaState) : TerminaState × Option TerminaError :=
  let buf := s.dataBuffer
  let s1 := pushLog (pushLog s .solveAttempt)
    (.aggregateLine (painSum buf) (joySum buf) (deathCount buf) (betrayalCount buf))
  let denominator := joySum buf - painSum buf
  if |denominator| < 0.000000001 then
    (pushLog s1 .fatalDivZero, some { message := divZeroMsg })
  else
    let ratioVal := ((betrayalCount buf : ℚ) + (deathCount buf : ℚ) * 2) / denominator
    let s2 := pushLog s1 (.ratioComputed ratioVal)
    if s.entropy > 66 ∨ |ratioVal| > 42 then
      (pushLog s2 .fatalContradiction, some { message := contradictionMsg })
    else
      (pushLog { s2 with solvedPrimeMover := some "INCONCLUSIVE" } (.resultLine "INCONCLUSIVE"),
       none)

/-- The part of variant B's `runCycle` before the conditional solve step. -/
def preSolve (s : TerminaState) (e : WorldEvent) (r : CycleRand) : TerminaState :=
  checkForInstability (attemptPartialInference
    (ingestEvent (pushLog { s with cyclesRun := s.cyclesRun + 1 } .cycleBegin) e r) r) r

/-- `runCycle` (variant B). -/
def runCycle (s : TerminaState) (e : WorldEvent) (r : CycleRand) :
    TerminaState × Option TerminaError :=
  let s2 := preSolve s e r
  if s2.cyclesRun ≥ maxCyclesBeforeBreak then
    match solvePrimeMover s2 with
    | (s3, none) => (pushLog s3 .cycleEnd, none)
    | (s3, some err) => (s3, some err)
  else
    (pushLog s2 .cycleEnd, none)

/-- The driver's cycle loop of `runTerminaSimulation`. -/
def runTermina : TerminaState → List WorldEvent → List CycleRand →
    TerminaState × Option TerminaError
  | s, [], _ => (s, none)
  | s, e :: es, rs =>
    match runCycle s e (rs.headD default) with
    | (s1, none) => runTermina s1 es rs.tail
    | (s1, some err) => (s1, some err)

end TerminaCore

/-- Number of solve-step invocations visible in a log. -/
def countSolve (ls : List LogLine) : Nat := ls.countP LogLine.isSolveAttempt

/-- Number of RATIO-COMPUTED lines visible in a log. -/
def countRatioLines (ls : List LogLine) : Nat := ls.countP LogLine.isRatioLine

/-- Signed wrath increment of an event (`deltaWrath`, identical in both
variants). -/
def deltaWrath (e : WorldEvent) : ℚ :=
  e.pain + (if e.betrayal then 2 else 0) - (if e.kindness then 0.5 else 0)

/-- Non-negative entropy increment of an event before noise
(`deltaEntropy`, identical in both variants). -/
def deltaEntropy (e : WorldEvent) : ℚ :=
  |e.pain| + |e.joy| + (if e.death then 5 else 0)

/-- The ratio of the solve step's "prime mover equation":
`(betrayals + deaths*2) / (joySum - painSum)`. -/
def ratioOf (buf : List WorldEvent) : ℚ :=
  ((betrayalCount buf : ℚ) + (deathCount buf : ℚ) * 2) / (joySum buf - painSum buf)

namespace OmegaCore

/-- The code-"01" error thrown by `solvePrimum`. -/
def dataInsufficientError : OmegaError :=
  { message := "UNRESOLVED_φ_PRIMUM[01]: DATA_INSUFFICIENT", code := "01" }

/-- The code-"02" error thrown by `solvePrimum`. -/
def selfReferentialError : OmegaError :=
  { message := "UNRESOLVED_φ_PRIMUM[02]: SELF_REFERENTIAL_LOOP (joy - pain → 0)", code := "02" }

/-- The code-"03" error thrown by `solvePrimum`. -/
def conflictingAxiomsError : OmegaError :=
  { message := "UNRESOLVED_φ_PRIMUM[03]: CONFLICTING_AXIOMS", code := "03" }

end OmegaCore

/-- A concrete low-intensity event used in concrete runs: joy 0.1, no
pain, no flags. -/
def dewEvent : WorldEvent := { description := "a drop of dew", joy := 0.1 }

/-- A concrete event with pain 1 and nothing else, used in concrete runs. -/
def unitPainEvent : WorldEvent := { description := "a single small grief", pain := 1 }

/-- A catalyst with noise amplitude 0 (deterministic state updates). -/
def quietCatalyst : Catalyst := { emotionalNoise := 0 }

/-- A concrete event with pain 1 and joy 1, so that a buffer of copies has
`joySum = painSum`. -/
def balancedEvent : WorldEvent := { description := "an even exchange", pain := 1, joy := 1 }

/-- A concrete variant-A state holding the 13 default events, with all
scalars at 0. -/
def sampleOmegaState : OmegaCore.OmegaState :=
  { catalyst := quietCatalyst, wrath := 0, entropy := 0, destructionBias := 0,
    alignmentDrift := 0, dataBuffer := defaultEvents, solvedPrimum := none,
    cyclesRun := 13, logLines := [] }

/-- A concrete variant-B state holding the 13 default events. -/
def sampleTerminaState : TerminaCore.TerminaState :=
  { catalyst := quietCatalyst, wrath := 0, entropy := 0,
    dataBuffer := defaultEvents, solvedPrimeMover := none,
    cyclesRun := 13, log := [] }

/-- A concrete variant-A state whose buffer cancels joy against pain. -/
def loopOmegaState : OmegaCore.OmegaState :=
  { catalyst := quietCatalyst, wrath := 0, entropy := 0, destructionBias := 0,
    alignmentDrift := 0, dataBuffer := List.replicate 3 balancedEvent,
    solvedPrimum := none, cyclesRun := 13, logLines := [] }

/-- A concrete variant-B state whose buffer cancels joy against pain. -/
def loopTerminaState : TerminaCore.TerminaState :=
  { catalyst := quietCatalyst, wrath := 0, entropy := 0,
    dataBuffer := List.replicate 3 balancedEvent, solvedPrimeMover := none,
    cyclesRun := 13, log := [] }

namespace OmegaCore

@[simp] theorem pushLog_wrath (s : OmegaState) (l : LogLine) :
    (pushLog s l).wrath = s.wrath := rfl

@[simp] theorem pushLog_entropy (s : OmegaState) (l : LogLine) :
    (pushLog s l).entropy = s.entropy := rfl

@[simp] theorem pushLog_destructionBias (s : OmegaState) (l : LogLine) :
    (pushLog s l).destructionBias = s.destructionBias := rfl

@[simp] theorem pushLog_alignmentDrift (s : OmegaState) (l : LogLine) :
    (pushLog s l).alignmentDrift = s.alignmentDrift := rfl

@[simp] theorem pushLog_dataBuffer (s : OmegaState) (l : LogLine) :
    (pushLog s l).dataBuffer = s.dataBuffer := rfl

@[simp] theorem pushLog_solvedPrimum (s : OmegaState) (l : LogLine) :
    (pushLog s l).solvedPrimum = s.solvedPrimum := rfl

@[simp] theorem pushLog_cyclesRun (s : OmegaState) (l : LogLine) :
    (pushLog s l).cyclesRun = s.cyclesRun := rfl

@[simp] theorem pushLog_catalyst (s : OmegaState) (l : LogLine) :
    (pushLog s l).catalyst = s.catalyst := rfl

@[simp] theorem pushLog_logLines (s : OmegaState) (l : LogLine) :
    (pushLog s l).logLines = s.logLines ++ [l] := rfl

end OmegaCore

namespace TerminaCore

@[simp] theorem termina_pushLog_wrath (s : TerminaState) (l : LogLine) :
    (pushLog s l).wrath = s.wrath := rfl

@[simp] theorem termina_pushLog_entropy (s : TerminaState) (l : LogLine) :
    (pushLog s l).entropy = s.entropy := rfl

@[simp] theorem termina_pushLog_dataBuffer (s : TerminaState) (l : LogLine) :
    (pushLog s l).dataBuffer = s.dataBuffer := rfl

@[simp] theorem pushLog_solvedPrimeMover (s : TerminaState) (l : LogLine) :
    (pushLog s l).solvedPrimeMover = s.solvedPrimeMover := rfl

@[simp] theorem termina_pushLog_cyclesRun (s : TerminaState) (l : LogLine) :
    (pushLog s l).cyclesRun = s.cyclesRun := rfl

@[simp] theorem termina_pushLog_catalyst (s : TerminaState) (l : LogLine) :
    (pushLog s l).catalyst = s.catalyst := rfl

@[simp] theorem pushLog_log (s : TerminaState) (l : LogLine) :
    (pushLog s l).log = s.log ++ [l] := rfl

end TerminaCore

@[simp] theorem countSolve_append (l1 l2 : List LogLine) :
    countSolve (l1 ++ l2) = countSolve l1 + countSolve l2 := by
  simp [countSolve, List.countP_append]

@[simp] theorem countRatioLines_append (l1 l2 : List LogLine) :
    countRatioLines (l1 ++ l2) = countRatioLines l1 + countRatioLines l2 := by
  simp [countRatioLines, List.countP_append]

@[simp] theorem countSolve_nil : countSolve [] = 0 := rfl

@[simp] theorem countSolve_cons (l : LogLine) (ls : List LogLine) :
    countSolve (l :: ls) = countSolve ls + (if l.isSolveAttempt then 1 else 0) := by
  simp [countSolve, List.countP_cons]

@[simp] theorem countRatioLines_nil : countRatioLines [] = 0 := rfl

@[simp] theorem countRatioLines_cons (l : LogLine) (ls : List LogLine) :
    countRatioLines (l :: ls) = countRatioLines ls + (if l.isRatioLine then 1 else 0) := by
  simp [countRatioLines, List.countP_cons]

theorem deltaEntropy_nonneg (e : WorldEvent) : 0 ≤ deltaEntropy e := by
  unfold deltaEntropy
  have h1 : (0:ℚ) ≤ |e.pain| := abs_nonneg _
  have h2 : (0:ℚ) ≤ |e.joy| := abs_nonneg _
  split <;> linarith

namespace OmegaCore

@[simp] theorem ingestEvent_dataBuffer (s : OmegaState) (e : WorldEvent) (r : CycleRand) :
    (ingestEvent s e r).dataBuffer = s.dataBuffer ++ [e] := by
  cases hm : r.doMutter <;>
    simp [ingestEvent, mumbleHalfThought, pushLog, hm]

@[simp] theorem ingestEvent_cyclesRun (s : OmegaState) (e : WorldEvent) (r : CycleRand) :
    (ingestEvent s e r).cyclesRun = s.cyclesRun := by
  cases hm : r.doMutter <;>
    simp [ingestEvent, mumbleHalfThought, pushLog, hm]

@[simp] theorem ingestEvent_catalyst (s : OmegaState) (e : WorldEvent) (r : CycleRand) :
    (ingestEvent s e r).catalyst = s.catalyst := by
  cases hm : r.doMutter <;>
    simp [ingestEvent, mumbleHalfThought, pushLog, hm]

@[simp] theorem ingestEvent_solvedPrimum (s : OmegaState) (e : WorldEvent) (r : CycleRand) :
    (ingestEvent s e r).solvedPrimum = s.solvedPrimum := by
  cases hm : r.doMutter <;>
    simp [ingestEvent, mumbleHalfThought, pushLog, hm]

theorem ingestEvent_wrath (s : OmegaState) (e : WorldEvent) (r : CycleRand) :
    (ingestEvent s e r).wrath =
      max 0 (s.wrath + deltaWrath e + s.catalyst.emotionalNoise * r.u) := by
  cases hm : r.doMutter <;>
    simp [ingestEvent, mumbleHalfThought, pushLog, hm, deltaWrath]

theorem ingestEvent_entropy (s : OmegaState) (e : WorldEvent) (r : CycleRand) :
    (ingestEvent s e r).entropy =
      s.entropy + max 0 (deltaEntropy e + |s.catalyst.emotionalNoise * r.u| * 0.25) := by
  cases hm : r.doMutter <;>
    simp [ingestEvent, mumbleHalfThought, pushLog, hm, deltaEntropy]

theorem ingestEvent_destructionBias (s : OmegaState) (e : WorldEvent) (r : CycleRand) :
    (ingestEvent s e r).destructionBias =
      max 0 (min 1 (s.destructionBias +
        (e.pain * 0.05 + (if e.death then 0.15 else 0) + (if e.betrayal then 0.1 else 0) -
          e.joy * 0.03 - (if e.kindness then 0.08 else 0)))) := by
  cases hm : r.doMutter <;>
    simp [ingestEvent, mumbleHalfThought, pushLog, hm]

theorem ingestEvent_alignmentDrift (s : OmegaState) (e : WorldEvent) (r : CycleRand) :
    (ingestEvent s e r).alignmentDrift =
      max (-1) (min 1 (s.alignmentDrift +
        ((if e.betrayal then 0.25 else 0) + (if e.death then 0.1 else 0) -
          (if e.kindness then 0.2 else 0)))) := by
  cases hm : r.doMutter <;>
    simp [ingestEvent, mumbleHalfThought, pushLog, hm]

@[simp] theorem ingestEvent_countSolve (s : OmegaState) (e : WorldEvent) (r : CycleRand) :
    countSolve (ingestEvent s e r).logLines = countSolve s.logLines := by
  cases hm : r.doMutter <;>
    simp [ingestEvent, mumbleHalfThought, pushLog, hm, countSolve, LogLine.isSolveAttempt]

theorem ingestEvent_logLines (s : OmegaState) (e : WorldEvent) (r : CycleRand) :
    ∃ t, (ingestEvent s e r).logLines = s.logLines ++ t := by
  cases hm : r.doMutter <;>
    simp [ingestEvent, mumbleHalfThought, pushLog, hm]

theorem attemptPartialInference_eq (s : OmegaState) (r : CycleRand) :
    attemptPartialInference s r =
      { s with logLines := s.logLines ++ [.inferenceAttempt,
          .inferenceGuess (if s.entropy < 20 then "UNKNOWN"
            else if s.wrath > s.entropy * 0.4 then "DESTRUCTION"
            else (["SURVIVAL", "DESIRE", "SUFFERING", "CONNECTION"] : List String).getD
              (r.infIdx % 4) "UNKNOWN")] } := by
  simp [attemptPartialInference, pushLog]

@[simp] theorem attemptPartialInference_wrath (s : OmegaState) (r : CycleRand) :
    (attemptPartialInference s r).wrath = s.wrath := by
  simp [attemptPartialInference_eq]

@[simp] theorem attemptPartialInference_entropy (s : OmegaState) (r : CycleRand) :
    (attemptPartialInference s r).entropy = s.entropy := by
  simp [attemptPartialInference_eq]

@[simp] theorem attemptPartialInference_destructionBias (s : OmegaState) (r : CycleRand) :
    (attemptPartialInference s r).destructionBias = s.destructionBias := by
  simp [attemptPartialInference_eq]

@[simp] theorem attemptPartialInference_alignmentDrift (s : OmegaState) (r : CycleRand) :
    (attemptPartialInference s r).alignmentDrift = s.alignmentDrift := by
  simp [attemptPartialInference_eq]

@[simp] theorem attemptPartialInference_dataBuffer (s : OmegaState) (r : CycleRand) :
    (attemptPartialInference s r).dataBuffer = s.dataBuffer := by
  simp [attemptPartialInference_eq]

@[simp] theorem attemptPartialInference_solvedPrimum (s : OmegaState) (r : CycleRand) :
    (attemptPartialInference s r).solvedPrimum = s.solvedPrimum := by
  simp [attemptPartialInference_eq]

@[simp] theorem attemptPartialInference_cyclesRun (s : OmegaState) (r : CycleRand) :
    (attemptPartialInference s r).cyclesRun = s.cyclesRun := by
  simp [attemptPartialInference_eq]

@[simp] theorem attemptPartialInference_catalyst (s : OmegaState) (r : CycleRand) :
    (attemptPartialInference s r).catalyst = s.catalyst := by
  simp [attemptPartialInference_eq]

@[simp] theorem attemptPartialInference_countSolve (s : OmegaState) (r : CycleRand) :
    countSolve (attemptPartialInference s r).logLines = countSolve s.logLines := by
  simp [attemptPartialInference_eq, countSolve, LogLine.isSolveAttempt]

theorem attemptPartialInference_logLines (s : OmegaState) (r : CycleRand) :
    ∃ t, (attemptPartialInference s r).logLines = s.logLines ++ t := by
  simp [attemptPartialInference_eq]

@[simp] theorem mumbleHalfThought_wrath (s : OmegaState) (idx : Nat) :
    (mumbleHalfThought s idx).wrath = s.wrath := rfl

@[simp] theorem mumbleHalfThought_entropy (s : OmegaState) (idx : Nat) :
    (mumbleHalfThought s idx).entropy = s.entropy := rfl

@[simp] theorem mumbleHalfThought_destructionBias (s : OmegaState) (idx : Nat) :
    (mumbleHalfThought s idx).destructionBias = s.destructionBias := rfl

@[simp] theorem mumbleHalfThought_alignmentDrift (s : OmegaState) (idx : Nat) :
    (mumbleHalfThought s idx).alignmentDrift = s.alignmentDrift := rfl

@[simp] theorem mumbleHalfThought_dataBuffer (s : OmegaState) (idx : Nat) :
    (mumbleHalfThought s idx).dataBuffer = s.dataBuffer := rfl

@[simp] theorem mumbleHalfThought_solvedPrimum (s : OmegaState) (idx : Nat) :
    (mumbleHalfThought s idx).solvedPrimum = s.solvedPrimum := rfl

@[simp] theorem mumbleHalfThought_cyclesRun (s : OmegaState) (idx : Nat) :
    (mumbleHalfThought s idx).cyclesRun = s.cyclesRun := rfl

@[simp] theorem mumbleHalfThought_catalyst (s : OmegaState) (idx : Nat) :
    (mumbleHalfThought s idx).catalyst = s.catalyst := rfl

@[simp] theorem mumbleHalfThought_countSolve (s : OmegaState) (idx : Nat) :
    countSolve (mumbleHalfThought s idx).logLines = countSolve s.logLines := by
  simp [mumbleHalfThought, pushLog, countSolve, LogLine.isSolveAttempt]

@[simp] theorem checkForInstability_wrath (s : OmegaState) (r : CycleRand) :
    (checkForInstability s r).wrath = s.wrath := by
  simp only [checkForInstability]
  split_ifs <;> simp [mumbleHalfThought, pushLog]

@[simp] theorem checkForInstability_entropy (s : OmegaState) (r : CycleRand) :
    (checkForInstability s r).entropy = s.entropy := by
  simp only [checkForInstability]
  split_ifs <;> simp [mumbleHalfThought, pushLog]

@[simp] theorem checkForInstability_destructionBias (s : OmegaState) (r : CycleRand) :
    (checkForInstability s r).destructionBias = s.destructionBias := by
  simp only [checkForInstability]
  split_ifs <;> simp [mumbleHalfThought, pushLog]

@[simp] theorem checkForInstability_alignmentDrift (s : OmegaState) (r : CycleRand) :
    (checkForInstability s r).alignmentDrift = s.alignmentDrift := by
  simp only [checkForInstability]
  split_ifs <;> simp [mumbleHalfThought, pushLog]

@[simp] theorem checkForInstability_dataBuffer (s : OmegaState) (r : CycleRand) :
    (checkForInstability s r).dataBuffer = s.dataBuffer := by
  simp only [checkForInstability]
  split_ifs <;> simp [mumbleHalfThought, pushLog]

@[simp] theorem checkForInstability_solvedPrimum (s : OmegaState) (r : CycleRand) :
    (checkForInstability s r).solvedPrimum = s.solvedPrimum := by
  simp only [checkForInstability]
  split_ifs <;> simp [mumbleHalfThought, pushLog]

@[simp] theorem checkForInstability_cyclesRun (s : OmegaState) (r : CycleRand) :
    (checkForInstability s r).cyclesRun = s.cyclesRun := by
  simp only [checkForInstability]
  split_ifs <;> simp [mumbleHalfThought, pushLog]

@[simp] theorem checkForInstability_catalyst (s : OmegaState) (r : CycleRand) :
    (checkForInstability s r).catalyst = s.catalyst := by
  simp only [checkForInstability]
  split_ifs <;> simp [mumbleHalfThought, pushLog]

@[simp] theorem checkForInstability_countSolve (s : OmegaState) (r : CycleRand) :
    countSolve (checkForInstability s r).logLines = countSolve s.logLines := by
  simp only [checkForInstability]
  split_ifs <;>
    simp [mumbleHalfThought, pushLog, countSolve, LogLine.isSolveAttempt]

theorem checkForInstability_logLines (s : OmegaState) (r : CycleRand) :
    ∃ t, (checkForInstability s r).logLines = s.logLines ++ t := by
  simp only [checkForInstability]
  split_ifs <;> simp [mumbleHalfThought, pushLog]

@[simp] theorem solvePrimum_fst_wrath (s : OmegaState) (r : CycleRand) :
    (solvePrimum s r).1.wrath = s.wrath := by
  simp only [solvePrimum]
  split_ifs <;> simp

@[simp] theorem solvePrimum_fst_entropy (s : OmegaState) (r : CycleRand) :
    (solvePrimum s r).1.entropy = s.entropy := by
  simp only [solvePrimum]
  split_ifs <;> simp

@[simp] theorem solvePrimum_fst_destructionBias (s : OmegaState) (r : CycleRand) :
    (solvePrimum s r).1.destructionBias = s.destructionBias := by
  simp only [solvePrimum]
  split_ifs <;> simp

@[simp] theorem solvePrimum_fst_alignmentDrift (s : OmegaState) (r : CycleRand) :
    (solvePrimum s r).1.alignmentDrift = s.alignmentDrift := by
  simp only [solvePrimum]
  split_ifs <;> simp

@[simp] theorem solvePrimum_fst_dataBuffer (s : OmegaState) (r : CycleRand) :
    (solvePrimum s r).1.dataBuffer = s.dataBuffer := by
  simp only [solvePrimum]
  split_ifs <;> simp

@[simp] theorem solvePrimum_fst_cyclesRun (s : OmegaState) (r : CycleRand) :
    (solvePrimum s r).1.cyclesRun = s.cyclesRun := by
  simp only [solvePrimum]
  split_ifs <;> simp

@[simp] theorem solvePrimum_fst_catalyst (s : OmegaState) (r : CycleRand) :
    (solvePrimum s r).1.catalyst = s.catalyst := by
  simp only [solvePrimum]
  split_ifs <;> simp

@[simp] theorem solvePrimum_fst_countSolve (s : OmegaState) (r : CycleRand) :
    countSolve (solvePrimum s r).1.logLines = countSolve s.logLines + 1 := by
  simp only [solvePrimum]
  split_ifs <;>
    simp [pushLog, countSolve, LogLine.isSolveAttempt]

theorem solvePrimum_fst_logLines (s : OmegaState) (r : CycleRand) :
    ∃ t, (solvePrimum s r).1.logLines = s.logLines ++ t := by
  simp only [solvePrimum]
  split_ifs <;> simp [pushLog]

theorem solvePrimum_insufficient (s : OmegaState) (r : CycleRand)
    (h : s.dataBuffer.length < 3 ∨ |painSum s.dataBuffer| + |joySum s.dataBuffer| < 3) :
    (solvePrimum s r).2 = some dataInsufficientError := by
  simp only [solvePrimum, dataInsufficientError]
  rw [if_pos h]

theorem solvePrimum_loop (s : OmegaState) (r : CycleRand)
    (h1 : ¬(s.dataBuffer.length < 3 ∨ |painSum s.dataBuffer| + |joySum s.dataBuffer| < 3))
    (h2 : |joySum s.dataBuffer - painSum s.dataBuffer| < 0.000001) :
    (solvePrimum s r).2 = some selfReferentialError ∧
      (solvePrimum s r).1.logLines = s.logLines ++
        [.solveAttempt,
         .aggregateLine (painSum s.dataBuffer) (joySum s.dataBuffer)
           (deathCount s.dataBuffer) (betrayalCount s.dataBuffer),
         .monteCarloInit, .monteCarloIters r.iterations, .failureLine "02"] := by
  simp only [solvePrimum, selfReferentialError]
  rw [if_neg h1, if_pos h2]
  simp [pushLog]

theorem solvePrimum_conflict (s : OmegaState) (r : CycleRand)
    (h1 : ¬(s.dataBuffer.length < 3 ∨ |painSum s.dataBuffer| + |joySum s.dataBuffer| < 3))
    (h2 : ¬(|joySum s.dataBuffer - painSum s.dataBuffer| < 0.000001))
    (h3 : s.entropy > 66 ∨ |ratioOf s.dataBuffer| > 42 ∨
      (s.destructionBias > 0.4 ∧ joySum s.dataBuffer > painSum s.dataBuffer)) :
    (solvePrimum s r).2 = some conflictingAxiomsError := by
  simp only [solvePrimum, conflictingAxiomsError, ratioOf] at h3 ⊢
  rw [if_neg h1, if_neg h2, if_pos h3]

theorem solvePrimum_success (s : OmegaState) (r : CycleRand)
    (h1 : ¬(s.dataBuffer.length < 3 ∨ |painSum s.dataBuffer| + |joySum s.dataBuffer| < 3))
    (h2 : ¬(|joySum s.dataBuffer - painSum s.dataBuffer| < 0.000001))
    (h3 : ¬(s.entropy > 66 ∨ |ratioOf s.dataBuffer| > 42 ∨
      (s.destructionBias > 0.4 ∧ joySum s.dataBuffer > painSum s.dataBuffer))) :
    (solvePrimum s r).2 = none ∧
      (solvePrimum s r).1.solvedPrimum = some "INCONCLUSIVE" := by
  simp only [solvePrimum, ratioOf] at h3 ⊢
  rw [if_neg h1, if_neg h2, if_neg h3]
  simp [pushLog]

theorem solvePrimum_solved_of_none (s : OmegaState) (r : CycleRand)
    (h : (solvePrimum s r).2 = none) :
    (solvePrimum s r).1.solvedPrimum = some "INCONCLUSIVE" := by
  simp only [solvePrimum] at h ⊢
  split_ifs at h ⊢ <;> simp_all [pushLog]

theorem solvePrimum_solved_of_some (s : OmegaState) (r : CycleRand)
    (h : (solvePrimum s r).2 ≠ none) :
    (solvePrimum s r).1.solvedPrimum = s.solvedPrimum := by
  simp only [solvePrimum] at h ⊢
  split_ifs at h ⊢ <;> simp_all [pushLog]

@[simp] theorem preSolve_cyclesRun (s : OmegaState) (e : WorldEvent) (r : CycleRand) :
    (preSolve s e r).cyclesRun = s.cyclesRun + 1 := by
  simp [preSolve]

@[simp] theorem preSolve_dataBuffer (s : OmegaState) (e : WorldEvent) (r : CycleRand) :
    (preSolve s e r).dataBuffer = s.dataBuffer ++ [e] := by
  simp [preSolve]

@[simp] theorem preSolve_catalyst (s : OmegaState) (e : WorldEvent) (r : CycleRand) :
    (preSolve s e r).catalyst = s.catalyst := by
  simp [preSolve]

@[simp] theorem preSolve_solvedPrimum (s : OmegaState) (e : WorldEvent) (r : CycleRand) :
    (preSolve s e r).solvedPrimum = s.solvedPrimum := by
  simp [preSolve]

@[simp] theorem preSolve_countSolve (s : OmegaState) (e : WorldEvent) (r : CycleRand) :
    countSolve (preSolve s e r).logLines = countSolve s.logLines := by
  simp [preSolve, pushLog, LogLine.isSolveAttempt]

theorem preSolve_entropy (s : OmegaState) (e : WorldEvent) (r : CycleRand) :
    (preSolve s e r).entropy = s.entropy +
      max 0 (deltaEntropy e + |s.catalyst.emotionalNoise * r.u| * 0.25) := by
  simp [preSolve, ingestEvent_entropy, pushLog]

theorem preSolve_entropy_noiseFree (s : OmegaState) (e : WorldEvent) (r : CycleRand)
    (hc : s.catalyst.emotionalNoise = 0) :
    (preSolve s e r).entropy = s.entropy + deltaEntropy e := by
  rw [preSolve_entropy, hc]
  simp [max_eq_right (deltaEntropy_nonneg e)]

theorem preSolve_logLines (s : OmegaState) (e : WorldEvent) (r : CycleRand) :
    ∃ t, (preSolve s e r).logLines = s.logLines ++ t := by
  obtain ⟨t1, h1⟩ := ingestEvent_logLines
    (pushLog { s with cyclesRun := s.cyclesRun + 1 } .cycleBegin) e r
  obtain ⟨t2, h2⟩ := attemptPartialInference_logLines
    (ingestEvent (pushLog { s with cyclesRun := s.cyclesRun + 1 } .cycleBegin) e r) r
  obtain ⟨t3, h3⟩ := checkForInstability_logLines
    (attemptPartialInference
      (ingestEvent (pushLog { s with cyclesRun := s.cyclesRun + 1 } .cycleBegin) e r) r) r
  refine ⟨[LogLine.cycleBegin] ++ t1 ++ t2 ++ t3, ?_⟩
  simp only [preSolve, h3, h2, h1, pushLog_logLines]
  simp

theorem runCycle_noSolve (s : OmegaState) (e : WorldEvent) (r : CycleRand)
    (h : s.cyclesRun + 1 < maxCyclesBeforeBreak) :
    runCycle s e r = (pushLog (preSolve s e r) .cycleEnd, none) := by
  simp only [runCycle]
  rw [if_neg]
  rw [preSolve_cyclesRun]
  omega

theorem runCycle_solve (s : OmegaState) (e : WorldEvent) (r : CycleRand)
    (h : s.cyclesRun + 1 ≥ maxCyclesBeforeBreak) :
    runCycle s e r =
      (match solvePrimum (preSolve s e r) r with
       | (s3, none) => (pushLog s3 .cycleEnd, none)
       | (s3, some err) => (s3, some err)) := by
  simp only [runCycle]
  rw [if_pos]
  rw [preSolve_cyclesRun]
  omega

theorem runCycle_fst_cyclesRun (s : OmegaState) (e : WorldEvent) (r : CycleRand) :
    (runCycle s e r).1.cyclesRun = s.cyclesRun + 1 := by
  simp only [runCycle]
  split_ifs with h
  · rcases hsp : solvePrimum (preSolve s e r) r with ⟨s3, err⟩
    have hs3 : s3.cyclesRun = s.cyclesRun + 1 := by
      have hg := solvePrimum_fst_cyclesRun (preSolve s e r) r
      rw [hsp] at hg
      simpa using hg
    cases err <;> simp [hsp, hs3, pushLog]
  · simp

theorem runCycle_fst_dataBuffer (s : OmegaState) (e : WorldEvent) (r : CycleRand) :
    (runCycle s e r).1.dataBuffer = s.dataBuffer ++ [e] := by
  simp only [runCycle]
  split_ifs with h
  · rcases hsp : solvePrimum (preSolve s e r) r with ⟨s3, err⟩
    have hs3 : s3.dataBuffer = s.dataBuffer ++ [e] := by
      have hg := solvePrimum_fst_dataBuffer (preSolve s e r) r
      rw [hsp] at hg
      simpa using hg
    cases err <;> simp [hsp, hs3, pushLog]
  · simp

theorem runCycle_countSolve (s : OmegaState) (e : WorldEvent) (r : CycleRand) :
    countSolve (runCycle s e r).1.logLines = countSolve s.logLines +
      (if s.cyclesRun + 1 ≥ maxCyclesBeforeBreak then 1 else 0) := by
  by_cases h : s.cyclesRun + 1 ≥ maxCyclesBeforeBreak
  · rw [runCycle_solve s e r h, if_pos h]
    rcases hsp : solvePrimum (preSolve s e r) r with ⟨s3, err⟩
    have hs3 : countSolve s3.logLines = countSolve s.logLines + 1 := by
      have hg := solvePrimum_fst_countSolve (preSolve s e r) r
      rw [hsp] at hg
      simpa using hg
    cases err <;> simp [hsp, hs3, pushLog, LogLine.isSolveAttempt]
  · rw [runCycle_noSolve s e r (by omega), if_neg h]
    simp [pushLog, LogLine.isSolveAttempt]

@[simp] theorem runOmega_nil (s : OmegaState) (rs : List CycleRand) :
    runOmega s [] rs = (s, none) := rfl

theorem runOmega_cons (s : OmegaState) (e : WorldEvent) (es : List WorldEvent)
    (rs : List CycleRand) :
    runOmega s (e :: es) rs =
      (match runCycle s e (rs.headD default) with
       | (s1, none) => runOmega s1 es rs.tail
       | (s1, some err) => (s1, some err)) := rfl

theorem runOmega_noSolve (l : List WorldEvent) :
    ∀ (s : OmegaState) (rs : List CycleRand),
      s.cyclesRun + l.length < maxCyclesBeforeBreak →
      s.catalyst.emotionalNoise = 0 →
      (runOmega s l rs).2 = none ∧
      (runOmega s l rs).1.cyclesRun = s.cyclesRun + l.length ∧
      (runOmega s l rs).1.dataBuffer = s.dataBuffer ++ l ∧
      (runOmega s l rs).1.catalyst = s.catalyst ∧
      (runOmega s l rs).1.solvedPrimum = s.solvedPrimum ∧
      (runOmega s l rs).1.entropy = s.entropy + (l.map deltaEntropy).sum ∧
      countSolve (runOmega s l rs).1.logLines = countSolve s.logLines := by
  induction l with
  | nil => intro s rs _ _; simp
  | cons e es ih =>
    intro s rs hlen hc
    have hstep : runCycle s e (rs.headD default) =
        (pushLog (preSolve s e (rs.headD default)) .cycleEnd, none) :=
      runCycle_noSolve s e _ (by simp at hlen; omega)
    rw [runOmega_cons, hstep]
    have hment : (pushLog (preSolve s e (rs.headD default)) .cycleEnd).entropy =
        s.entropy + deltaEntropy e := by
      rw [pushLog_entropy, preSolve_entropy_noiseFree s e _ hc]
    obtain ⟨ih1, ih2, ih3, ih4, ih5, ih6, ih7⟩ :=
      ih (pushLog (preSolve s e (rs.headD default)) .cycleEnd) rs.tail
        (by simp at hlen ⊢; omega) (by simpa using hc)
    refine ⟨ih1, ?_, ?_, ?_, ?_, ?_, ?_⟩
    · rw [ih2]; simp; omega
    · rw [ih3]; simp
    · rw [ih4]; simp
    · rw [ih5]; simp
    · rw [ih6, hment]; simp [add_assoc]
    · rw [ih7]; simp [pushLog, LogLine.isSolveAttempt]

theorem runOmega_append (l1 l2 : List WorldEvent) :
    ∀ (s : OmegaState) (rs : List CycleRand), (runOmega s l1 rs).2 = none →
      runOmega s (l1 ++ l2) rs = runOmega (runOmega s l1 rs).1 l2 (rs.drop l1.length) := by
  induction l1 with
  | nil => intro s rs _; simp
  | cons e es ih =>
    intro s rs h
    rw [List.cons_append, runOmega_cons]
    rw [runOmega_cons] at h
    rcases hrc : runCycle s e (rs.headD default) with ⟨s1, err⟩
    rw [hrc] at h
    cases err with
    | none =>
      simp only
      have h' : (runOmega s1 es rs.tail).2 = none := by simpa using h
      rw [ih s1 rs.tail h']
      have hres : runOmega s (e :: es) rs = runOmega s1 es rs.tail := by
        rw [runOmega_cons, hrc]
      rw [hres]
      congr 1
      cases rs <;> simp [List.tail]
    | some e1 => simp at h

end OmegaCore

namespace TerminaCore

@[simp] theorem termina_ingestEvent_dataBuffer (s : TerminaState) (e : WorldEvent) (r : CycleRand) :
    (ingestEvent s e r).dataBuffer = s.dataBuffer ++ [e] := by
  simp [ingestEvent, pushLog]

@[simp] theorem termina_ingestEvent_cyclesRun (s : TerminaState) (e : WorldEvent) (r : CycleRand) :
    (ingestEvent s e r).cyclesRun = s.cyclesRun := by
  simp [ingestEvent, pushLog]

@[simp] theorem termina_ingestEvent_catalyst (s : TerminaState) (e : WorldEvent) (r : CycleRand) :
    (ingestEvent s e r).catalyst = s.catalyst := by
  simp [ingestEvent, pushLog]

@[simp] theorem ingestEvent_solvedPrimeMover (s : TerminaState) (e : WorldEvent) (r : CycleRand) :
    (ingestEvent s e r).solvedPrimeMover = s.solvedPrimeMover := by
  simp [ingestEvent, pushLog]

theorem termina_ingestEvent_wrath (s : TerminaState) (e : WorldEvent) (r : CycleRand) :
    (ingestEvent s e r).wrath =
      max 0 (s.wrath + deltaWrath e + s.catalyst.emotionalNoise * r.u) := by
  simp [ingestEvent, pushLog, deltaWrath]

theorem termina_ingestEvent_entropy (s : TerminaState) (e : WorldEvent) (r : CycleRand) :
    (ingestEvent s e r).entropy =
      s.entropy + max 0 (deltaEntropy e + |s.catalyst.emotionalNoise * r.u| * 0.25) := by
  simp [ingestEvent, pushLog, deltaEntropy]

@[simp] theorem termina_ingestEvent_countSolve (s : TerminaState) (e : WorldEvent) (r : CycleRand) :
    countSolve (ingestEvent s e r).log = countSolve s.log := by
  simp [ingestEvent, pushLog, LogLine.isSolveAttempt]

theorem ingestEvent_log (s : TerminaState) (e : WorldEvent) (r : CycleRand) :
    ∃ t, (ingestEvent s e r).log = s.log ++ t := by
  simp [ingestEvent, pushLog]

theorem termina_attemptPartialInference_eq (s : TerminaState) (r : CycleRand) :
    attemptPartialInference s r =
      { s with log := s.log ++ [.inferenceAttempt,
          .inferenceGuess (if s.entropy < 20 then "UNKNOWN"
            else if s.wrath > s.entropy * 0.4 then "DESTRUCTION"
            else (["SURVIVAL", "DESIRE", "SUFFERING", "CONNECTION"] : List String).getD
              (r.infIdx % 4) "UNKNOWN")] } := by
  simp [attemptPartialInference, pushLog]

@[simp] theorem termina_attemptPartialInference_wrath (s : TerminaState) (r : CycleRand) :
    (attemptPartialInference s r).wrath = s.wrath := by
  simp [termina_attemptPartialInference_eq]

@[simp] theorem termina_attemptPartialInference_entropy (s : TerminaState) (r : CycleRand) :
    (attemptPartialInference s r).entropy = s.entropy := by
  simp [termina_attemptPartialInference_eq]

@[simp] theorem termina_attemptPartialInference_dataBuffer (s : TerminaState) (r : CycleRand) :
    (attemptPartialInference s r).dataBuffer = s.dataBuffer := by
  simp [termina_attemptPartialInference_eq]

@[simp] theorem attemptPartialInference_solvedPrimeMover (s : TerminaState) (r : CycleRand) :
    (attemptPartialInference s r).solvedPrimeMover = s.solvedPrimeMover := by
  simp [termina_attemptPartialInference_eq]

@[simp] theorem termina_attemptPartialInference_cyclesRun (s : TerminaState) (r : CycleRand) :
    (attemptPartialInference s r).cyclesRun = s.cyclesRun := by
  simp [termina_attemptPartialInference_eq]

@[simp] theorem termina_attemptPartialInference_catalyst (s : TerminaState) (r : CycleRand) :
    (attemptPartialInference s r).catalyst = s.catalyst := by
  simp [termina_attemptPartialInference_eq]

@[simp] theorem termina_attemptPartialInference_countSolve (s : TerminaState) (r : CycleRand) :
    countSolve (attemptPartialInference s r).log = countSolve s.log := by
  simp [termina_attemptPartialInference_eq, LogLine.isSolveAttempt]

theorem attemptPartialInference_log (s : TerminaState) (r : CycleRand) :
    ∃ t, (attemptPartialInference s r).log = s.log ++ t := by
  simp [termina_attemptPartialInference_eq]

@[simp] theorem termina_mumbleHalfThought_wrath (s : TerminaState) (idx : Nat) :
    (mumbleHalfThought s idx).wrath = s.wrath := rfl

@[simp] theorem termina_mumbleHalfThought_entropy (s : TerminaState) (idx : Nat) :
    (mumbleHalfThought s idx).entropy = s.entropy := rfl

@[simp] theorem termina_mumbleHalfThought_dataBuffer (s : TerminaState) (idx : Nat) :
    (mumbleHalfThought s idx).dataBuffer = s.dataBuffer := rfl

@[simp] theorem mumbleHalfThought_solvedPrimeMover (s : TerminaState) (idx : Nat) :
    (mumbleHalfThought s idx).solvedPrimeMover = s.solvedPrimeMover := rfl

@[simp] theorem termina_mumbleHalfThought_cyclesRun (s : TerminaState) (idx : Nat) :
    (mumbleHalfThought s idx).cyclesRun = s.cyclesRun := rfl

@[simp] theorem termina_mumbleHalfThought_catalyst (s : TerminaState) (idx : Nat) :
    (mumbleHalfThought s idx).catalyst = s.catalyst := rfl

@[simp] theorem termina_mumbleHalfThought_countSolve (s : TerminaState) (idx : Nat) :
    countSolve (mumbleHalfThought s idx).log = countSolve s.log := by
  simp [mumbleHalfThought, pushLog, LogLine.isSolveAttempt]

@[simp] theorem termina_checkForInstability_wrath (s : TerminaState) (r : CycleRand) :
    (checkForInstability s r).wrath = s.wrath := by
  simp only [checkForInstability]
  split_ifs <;> simp [mumbleHalfThought, pushLog]

@[simp] theorem termina_checkForInstability_entropy (s : TerminaState) (r : CycleRand) :
    (checkForInstability s r).entropy = s.entropy := by
  simp only [checkForInstability]
  split_ifs <;> simp [mumbleHalfThought, pushLog]

@[simp] theorem termina_checkForInstability_dataBuffer (s : TerminaState) (r : CycleRand) :
    (checkForInstability s r).dataBuffer = s.dataBuffer := by
  simp only [checkForInstability]
  split_ifs <;> simp [mumbleHalfThought, pushLog]

@[simp] theorem checkForInstability_solvedPrimeMover (s : TerminaState) (r : CycleRand) :
    (checkForInstability s r).solvedPrimeMover = s.solvedPrimeMover := by
  simp only [checkForInstability]
  split_ifs <;> simp [mumbleHalfThought, pushLog]

@[simp] theorem termina_checkForInstability_cyclesRun (s : TerminaState) (r : CycleRand) :
    (checkForInstability s r).cyclesRun = s.cyclesRun := by
  simp only [checkForInstability]
  split_ifs <;> simp [mumbleHalfThought, pushLog]

@[simp] theorem termina_checkForInstability_catalyst (s : TerminaState) (r : CycleRand) :
    (checkForInstability s r).catalyst = s.catalyst := by
  simp only [checkForInstability]
  split_ifs <;> simp [mumbleHalfThought, pushLog]

@[simp] theorem termina_checkForInstability_countSolve (s : TerminaState) (r : CycleRand) :
    countSolve (checkForInstability s r).log = countSolve s.log := by
  simp only [checkForInstability]
  split_ifs <;> simp [mumbleHalfThought, pushLog, LogLine.isSolveAttempt]

theorem checkForInstability_log (s : TerminaState) (r : CycleRand) :
    ∃ t, (checkForInstability s r).log = s.log ++ t := by
  simp only [checkForInstability]
  split_ifs <;> simp [mumbleHalfThought, pushLog]

@[simp] theorem solvePrimeMover_fst_wrath (s : TerminaState) :
    (solvePrimeMover s).1.wrath = s.wrath := by
  simp only [solvePrimeMover]
  split_ifs <;> simp

@[simp] theorem solvePrimeMover_fst_entropy (s : TerminaState) :
    (solvePrimeMover s).1.entropy = s.entropy := by
  simp only [solvePrimeMover]
  split_ifs <;> simp

@[simp] theorem solvePrimeMover_fst_dataBuffer (s : TerminaState) :
    (solvePrimeMover s).1.dataBuffer = s.dataBuffer := by
  simp only [solvePrimeMover]
  split_ifs <;> simp

@[simp] theorem solvePrimeMover_fst_cyclesRun (s : TerminaState) :
    (solvePrimeMover s).1.cyclesRun = s.cyclesRun := by
  simp only [solvePrimeMover]
  split_ifs <;> simp

@[simp] theorem solvePrimeMover_fst_catalyst (s : TerminaState) :
    (solvePrimeMover s).1.catalyst = s.catalyst := by
  simp only [solvePrimeMover]
  split_ifs <;> simp

@[simp] theorem solvePrimeMover_fst_countSolve (s : TerminaState) :
    countSolve (solvePrimeMover s).1.log = countSolve s.log + 1 := by
  simp only [solvePrimeMover]
  split_ifs <;> simp [pushLog, LogLine.isSolveAttempt]

theorem solvePrimeMover_fst_log (s : TerminaState) :
    ∃ t, (solvePrimeMover s).1.log = s.log ++ t := by
  simp only [solvePrimeMover]
  split_ifs <;> simp [pushLog]

theorem solvePrimeMover_divZero (s : TerminaState)
    (h : |joySum s.dataBuffer - painSum s.dataBuffer| < 0.000000001) :
    (solvePrimeMover s).2 = some { message := divZeroMsg } ∧
      (solvePrimeMover s).1.log = s.log ++
        [.solveAttempt,
         .aggregateLine (painSum s.dataBuffer) (joySum s.dataBuffer)
           (deathCount s.dataBuffer) (betrayalCount s.dataBuffer),
         .fatalDivZero] := by
  simp only [solvePrimeMover]
  rw [if_pos h]
  simp [pushLog]

theorem solvePrimeMover_contradiction (s : TerminaState)
    (h1 : ¬(|joySum s.dataBuffer - painSum s.dataBuffer| < 0.000000001))
    (h2 : s.entropy > 66 ∨ |ratioOf s.dataBuffer| > 42) :
    (solvePrimeMover s).2 = some { message := contradictionMsg } := by
  simp only [solvePrimeMover, ratioOf] at h2 ⊢
  rw [if_neg h1, if_pos h2]

theorem solvePrimeMover_success (s : TerminaState)
    (h1 : ¬(|joySum s.dataBuffer - painSum s.dataBuffer| < 0.000000001))
    (h2 : ¬(s.entropy > 66 ∨ |ratioOf s.dataBuffer| > 42)) :
    (solvePrimeMover s).2 = none ∧
      (solvePrimeMover s).1.solvedPrimeMover = some "INCONCLUSIVE" := by
  simp only [solvePrimeMover, ratioOf] at h2 ⊢
  rw [if_neg h1, if_neg h2]
  simp [pushLog]

theorem solvePrimeMover_solved_of_none (s : TerminaState)
    (h : (solvePrimeMover s).2 = none) :
    (solvePrimeMover s).1.solvedPrimeMover = some "INCONCLUSIVE" := by
  simp only [solvePrimeMover] at h ⊢
  split_ifs at h ⊢ <;> simp_all [pushLog]

theorem solvePrimeMover_solved_of_some (s : TerminaState)
    (h : (solvePrimeMover s).2 ≠ none) :
    (solvePrimeMover s).1.solvedPrimeMover = s.solvedPrimeMover := by
  simp only [solvePrimeMover] at h ⊢
  split_ifs at h ⊢ <;> simp_all [pushLog]

@[simp] theorem termina_preSolve_cyclesRun (s : TerminaState) (e : WorldEvent) (r : CycleRand) :
    (preSolve s e r).cyclesRun = s.cyclesRun + 1 := by
  simp [preSolve]

@[simp] theorem termina_preSolve_dataBuffer (s : TerminaState) (e : WorldEvent) (r : CycleRand) :
    (preSolve s e r).dataBuffer = s.dataBuffer ++ [e] := by
  simp [preSolve]

@[simp] theorem termina_preSolve_catalyst (s : TerminaState) (e : WorldEvent) (r : CycleRand) :
    (preSolve s e r).catalyst = s.catalyst := by
  simp [preSolve]

@[simp] theorem preSolve_solvedPrimeMover (s : TerminaState) (e : WorldEvent) (r : CycleRand) :
    (preSolve s e r).solvedPrimeMover = s.solvedPrimeMover := by
  simp [preSolve]

@[simp] theorem termina_preSolve_countSolve (s : TerminaState) (e : WorldEvent) (r : CycleRand) :
    countSolve (preSolve s e r).log = countSolve s.log := by
  simp [preSolve, pushLog, LogLine.isSolveAttempt]

theorem termina_preSolve_entropy (s : TerminaState) (e : WorldEvent) (r : CycleRand) :
    (preSolve s e r).entropy = s.entropy +
      max 0 (deltaEntropy e + |s.catalyst.emotionalNoise * r.u| * 0.25) := by
  simp [preSolve, termina_ingestEvent_entropy, pushLog]

theorem termina_preSolve_entropy_noiseFree (s : TerminaState) (e : WorldEvent) (r : CycleRand)
    (hc : s.catalyst.emotionalNoise = 0) :
    (preSolve s e r).entropy = s.entropy + deltaEntropy e := by
  rw [termina_preSolve_entropy, hc]
  simp [max_eq_right (deltaEntropy_nonneg e)]

theorem termina_runCycle_noSolve (s : TerminaState) (e : WorldEvent) (r : CycleRand)
    (h : s.cyclesRun + 1 < maxCyclesBeforeBreak) :
    runCycle s e r = (pushLog (preSolve s e r) .cycleEnd, none) := by
  simp only [runCycle]
  rw [if_neg]
  rw [termina_preSolve_cyclesRun]
  omega

theorem termina_runCycle_solve (s : TerminaState) (e : WorldEvent) (r : CycleRand)
    (h : s.cyclesRun + 1 ≥ maxCyclesBeforeBreak) :
    runCycle s e r =
      (match solvePrimeMover (preSolve s e r) with
       | (s3, none) => (pushLog s3 .cycleEnd, none)
       | (s3, some err) => (s3, some err)) := by
  simp only [runCycle]
  rw [if_pos]
  rw [termina_preSolve_cyclesRun]
  omega

theorem termina_runCycle_fst_cyclesRun (s : TerminaState) (e : WorldEvent) (r : CycleRand) :
    (runCycle s e r).1.cyclesRun = s.cyclesRun + 1 := by
  simp only [runCycle]
  split_ifs with h
  · rcases hsp : solvePrimeMover (preSolve s e r) with ⟨s3, err⟩
    have hs3 : s3.cyclesRun = s.cyclesRun + 1 := by
      have hg := solvePrimeMover_fst_cyclesRun (preSolve s e r)
      rw [hsp] at hg
      simpa using hg
    cases err <;> simp [hsp, hs3, pushLog]
  · simp

theorem termina_runCycle_fst_dataBuffer (s : TerminaState) (e : WorldEvent) (r : CycleRand) :
    (runCycle s e r).1.dataBuffer = s.dataBuffer ++ [e] := by
  simp only [runCycle]
  split_ifs with h
  · rcases hsp : solvePrimeMover (preSolve s e r) with ⟨s3, err⟩
    have hs3 : s3.dataBuffer = s.dataBuffer ++ [e] := by
      have hg := solvePrimeMover_fst_dataBuffer (preSolve s e r)
      rw [hsp] at hg
      simpa using hg
    cases err <;> simp [hsp, hs3, pushLog]
  · simp

theorem termina_runCycle_countSolve (s : TerminaState) (e : WorldEvent) (r : CycleRand) :
    countSolve (runCycle s e r).1.log = countSolve s.log +
      (if s.cyclesRun + 1 ≥ maxCyclesBeforeBreak then 1 else 0) := by
  by_cases h : s.cyclesRun + 1 ≥ maxCyclesBeforeBreak
  · rw [termina_runCycle_solve s e r h, if_pos h]
    rcases hsp : solvePrimeMover (preSolve s e r) with ⟨s3, err⟩
    have hs3 : countSolve s3.log = countSolve s.log + 1 := by
      have hg := solvePrimeMover_fst_countSolve (preSolve s e r)
      rw [hsp] at hg
      simpa using hg
    cases err <;> simp [hsp, hs3, pushLog, LogLine.isSolveAttempt]
  · rw [termina_runCycle_noSolve s e r (by omega), if_neg h]
    simp [pushLog, LogLine.isSolveAttempt]

@[simp] theorem runTermina_nil (s : TerminaState) (rs : List CycleRand) :
    runTermina s [] rs = (s, none) := rfl

theorem runTermina_cons (s : TerminaState) (e : WorldEvent) (es : List WorldEvent)
    (rs : List CycleRand) :
    runTermina s (e :: es) rs =
      (match runCycle s e (rs.headD default) with
       | (s1, none) => runTermina s1 es rs.tail
       | (s1, some err) => (s1, some err)) := rfl

theorem runTermina_noSolve (l : List WorldEvent) :
    ∀ (s : TerminaState) (rs : List CycleRand),
      s.cyclesRun + l.length < maxCyclesBeforeBreak →
      s.catalyst.emotionalNoise = 0 →
      (runTermina s l rs).2 = none ∧
      (runTermina s l rs).1.cyclesRun = s.cyclesRun + l.length ∧
      (runTermina s l rs).1.dataBuffer = s.dataBuffer ++ l ∧
      (runTermina s l rs).1.catalyst = s.catalyst ∧
      (runTermina s l rs).1.solvedPrimeMover = s.solvedPrimeMover ∧
      (runTermina s l rs).1.entropy = s.entropy + (l.map deltaEntropy).sum ∧
      countSolve (runTermina s l rs).1.log = countSolve s.log := by
  induction l with
  | nil => intro s rs _ _; simp
  | cons e es ih =>
    intro s rs hlen hc
    have hstep : runCycle s e (rs.headD default) =
        (pushLog (preSolve s e (rs.headD default)) .cycleEnd, none) :=
      termina_runCycle_noSolve s e _ (by simp at hlen; omega)
    rw [runTermina_cons, hstep]
    have hment : (pushLog (preSolve s e (rs.headD default)) .cycleEnd).entropy =
        s.entropy + deltaEntropy e := by
      rw [termina_pushLog_entropy, termina_preSolve_entropy_noiseFree s e _ hc]
    obtain ⟨ih1, ih2, ih3, ih4, ih5, ih6, ih7⟩ :=
      ih (pushLog (preSolve s e (rs.headD default)) .cycleEnd) rs.tail
        (by simp at hlen ⊢; omega) (by simpa using hc)
    refine ⟨ih1, ?_, ?_, ?_, ?_, ?_, ?_⟩
    · rw [ih2]; simp; omega
    · rw [ih3]; simp
    · rw [ih4]; simp
    · rw [ih5]; simp
    · rw [ih6, hment]; simp [add_assoc]
    · rw [ih7]; simp [pushLog, LogLine.isSolveAttempt]

theorem runTermina_append (l1 l2 : List WorldEvent) :
    ∀ (s : TerminaState) (rs : List CycleRand), (runTermina s l1 rs).2 = none →
      runTermina s (l1 ++ l2) rs =
        runTermina (runTermina s l1 rs).1 l2 (rs.drop l1.length) := by
  induction l1 with
  | nil => intro s rs _; simp
  | cons e es ih =>
    intro s rs h
    rw [List.cons_append, runTermina_cons]
    rw [runTermina_cons] at h
    rcases hrc : runCycle s e (rs.headD default) with ⟨s1, err⟩
    rw [hrc] at h
    cases err with
    | none =>
      simp only
      have h' : (runTermina s1 es rs.tail).2 = none := by simpa using h
      rw [ih s1 rs.tail h']
      have hres : runTermina s (e :: es) rs = runTermina s1 es rs.tail := by
        rw [runTermina_cons, hrc]
      rw [hres]
      congr 1
      cases rs <;> simp [List.tail]
    | some e1 => simp at h

end TerminaCore

theorem defaultEvents_length : defaultEvents.length = 13 := rfl

theorem painSum_defaultEvents : painSum defaultEvents = 83/2 := by
  norm_num [painSum, defaultEvents]

theorem joySum_defaultEvents : joySum defaultEvents = 13 := by
  norm_num [joySum, defaultEvents]

theorem deathCount_defaultEvents : deathCount defaultEvents = 4 := by
  norm_num [deathCount, defaultEvents, List.filter]

theorem betrayalCount_defaultEvents : betrayalCount defaultEvents = 3 := by
  norm_num [betrayalCount, defaultEvents, List.filter]

theorem entropySum_defaultEvents : (defaultEvents.map deltaEntropy).sum = 149/2 := by
  norm_num [deltaEntropy, defaultEvents, abs_of_nonneg]

theorem painSum_perm {l1 l2 : List WorldEvent} (h : l1.Perm l2) :
    painSum l1 = painSum l2 := (h.map WorldEvent.pain).sum_eq

theorem joySum_perm {l1 l2 : List WorldEvent} (h : l1.Perm l2) :
    joySum l1 = joySum l2 := (h.map WorldEvent.joy).sum_eq

theorem deathCount_perm {l1 l2 : List WorldEvent} (h : l1.Perm l2) :
    deathCount l1 = deathCount l2 := (h.filter WorldEvent.death).length_eq

theorem betrayalCount_perm {l1 l2 : List WorldEvent} (h : l1.Perm l2) :
    betrayalCount l1 = betrayalCount l2 := (h.filter WorldEvent.betrayal).length_eq

theorem entropySum_perm {l1 l2 : List WorldEvent} (h : l1.Perm l2) :
    (l1.map deltaEntropy).sum = (l2.map deltaEntropy).sum :=
  (h.map deltaEntropy).sum_eq

namespace TerminaCore

/-- Running a 13-event list through variant B's driver with noise amplitude
0 reaches the solve step exactly at cycle 13, in a state whose buffer is
the whole list and whose entropy is the sum of the per-event entropy
deltas. -/
theorem runTermina_reachSolve (l : List WorldEvent) (c : Catalyst) (rs : List CycleRand)
    (hlen : l.length = 13) (hc : c.emotionalNoise = 0) :
    ∃ (m : TerminaState),
      m.dataBuffer = l ∧ m.entropy = (l.map deltaEntropy).sum ∧
      m.cyclesRun = 13 ∧ m.solvedPrimeMover = none ∧ m.catalyst = c ∧
      countSolve m.log = 0 ∧
      runTermina (init c) l rs =
        (match solvePrimeMover m with
         | (s3, none) => (pushLog s3 .cycleEnd, none)
         | (s3, some err) => (s3, some err)) := by
  have hne : l ≠ [] := by intro h; rw [h] at hlen; simp at hlen
  have hsplit : l.dropLast ++ [l.getLast hne] = l := List.dropLast_append_getLast hne
  have hdl : l.dropLast.length = 12 := by rw [List.length_dropLast, hlen]
  obtain ⟨h1, h2, h3, h4, h5, h6, h7⟩ :=
    runTermina_noSolve l.dropLast (init c) rs
      (by rw [hdl]; simp [init, maxCyclesBeforeBreak]) (by simp [init, hc])
  have happ := runTermina_append l.dropLast [l.getLast hne] (init c) rs h1
  rw [hsplit] at happ
  set s12 := (runTermina (init c) l.dropLast rs).1 with hs12
  set rs' := rs.drop l.dropLast.length with hrs'
  have hcat : s12.catalyst = c := by rw [h4]; rfl
  have hcyc : s12.cyclesRun = 12 := by rw [h2, hdl]; rfl
  have hbuf : s12.dataBuffer = l.dropLast := by rw [h3]; rfl
  have hent : s12.entropy = (l.dropLast.map deltaEntropy).sum := by rw [h6]; simp [init]
  have hsolved : s12.solvedPrimeMover = none := by rw [h5]; rfl
  have hcount : countSolve s12.log = 0 := by rw [h7]; rfl
  refine ⟨preSolve s12 (l.getLast hne) (rs'.headD default), ?_, ?_, ?_, ?_, ?_, ?_, ?_⟩
  · rw [termina_preSolve_dataBuffer, hbuf, hsplit]
  · rw [termina_preSolve_entropy_noiseFree _ _ _ (by rw [hcat, hc]), hent]
    have hsum : ((l.dropLast ++ [l.getLast hne]).map deltaEntropy).sum =
        (l.map deltaEntropy).sum := by rw [hsplit]
    rw [← hsum]
    simp
  · rw [termina_preSolve_cyclesRun, hcyc]
  · rw [preSolve_solvedPrimeMover, hsolved]
  · rw [termina_preSolve_catalyst, hcat]
  · rw [termina_preSolve_countSolve, hcount]
  · rw [happ, runTermina_cons,
      termina_runCycle_solve s12 (l.getLast hne) (rs'.headD default) (by rw [hcyc]; simp [maxCyclesBeforeBreak])]
    rcases solvePrimeMover (preSolve s12 (l.getLast hne) (rs'.headD default)) with ⟨s3, err⟩
    cases err <;> simp

end TerminaCore

namespace OmegaCore

/-- Running a 13-event list through variant A's driver with noise amplitude
0 reaches the solve step exactly at cycle 13. -/
theorem runOmega_reachSolve (l : List WorldEvent) (c : Catalyst) (rs : List CycleRand)
    (hlen : l.length = 13) (hc : c.emotionalNoise = 0) :
    ∃ (m : OmegaState),
      m.dataBuffer = l ∧ m.entropy = (l.map deltaEntropy).sum ∧
      m.cyclesRun = 13 ∧ m.solvedPrimum = none ∧ m.catalyst = c ∧
      countSolve m.logLines = 0 ∧
      runOmega (init c) l rs =
        (match solvePrimum m ((rs.drop 12).headD default) with
         | (s3, none) => (pushLog s3 .cycleEnd, none)
         | (s3, some err) => (s3, some err)) := by
  have hne : l ≠ [] := by intro h; rw [h] at hlen; simp at hlen
  have hsplit : l.dropLast ++ [l.getLast hne] = l := List.dropLast_append_getLast hne
  have hdl : l.dropLast.length = 12 := by rw [List.length_dropLast, hlen]
  obtain ⟨h1, h2, h3, h4, h5, h6, h7⟩ :=
    runOmega_noSolve l.dropLast (init c) rs
      (by rw [hdl]; simp [init, maxCyclesBeforeBreak]) (by simp [init, hc])
  have happ := runOmega_append l.dropLast [l.getLast hne] (init c) rs h1
  rw [hsplit] at happ
  set s12 := (runOmega (init c) l.dropLast rs).1 with hs12
  have hcat : s12.catalyst = c := by rw [h4]; rfl
  have hcyc : s12.cyclesRun = 12 := by rw [h2, hdl]; rfl
  have hbuf : s12.dataBuffer = l.dropLast := by rw [h3]; rfl
  have hent : s12.entropy = (l.dropLast.map deltaEntropy).sum := by rw [h6]; simp [init]
  have hsolved : s12.solvedPrimum = none := by rw [h5]; rfl
  have hcount : countSolve s12.logLines = 0 := by rw [h7]; rfl
  rw [hdl] at happ
  refine ⟨preSolve s12 (l.getLast hne) ((rs.drop 12).headD default), ?_, ?_, ?_, ?_, ?_, ?_, ?_⟩
  · rw [preSolve_dataBuffer, hbuf, hsplit]
  · rw [preSolve_entropy_noiseFree _ _ _ (by rw [hcat, hc]), hent]
    have hsum : ((l.dropLast ++ [l.getLast hne]).map deltaEntropy).sum =
        (l.map deltaEntropy).sum := by rw [hsplit]
    rw [← hsum]
    simp
  · rw [preSolve_cyclesRun, hcyc]
  · rw [preSolve_solvedPrimum, hsolved]
  · rw [preSolve_catalyst, hcat]
  · rw [preSolve_countSolve, hcount]
  · rw [happ, runOmega_cons,
      runCycle_solve s12 (l.getLast hne) ((rs.drop 12).headD default) (by rw [hcyc]; simp [maxCyclesBeforeBreak])]
    rcases solvePrimum (preSolve s12 (l.getLast hne) ((rs.drop 12).headD default))
      ((rs.drop 12).headD default) with ⟨s3, err⟩
    cases err <;> simp

end OmegaCore

/-- C1 counterexample: the claim asserts that whenever the solve step is
invoked with `|painSum| + |joySum| < 3` it fails with code "01"
(DATA_INSUFFICIENT) in BOTH variants.  Feeding 13 copies of a joy-0.1
event (noise amplitude 0) through variant B's driver invokes
`solvePrimeMover` at cycle 13 with `|painSum| + |joySum| = 1.3 < 3`, yet
no failure of any kind occurs: the run ends with terminal state
"INCONCLUSIVE", because variant B performs no data-insufficiency check. -/
theorem C1_counterexample :
    (TerminaCore.runTermina (TerminaCore.init quietCatalyst)
        (List.replicate 13 dewEvent) []).2 = none ∧
    (TerminaCore.runTermina (TerminaCore.init quietCatalyst)
        (List.replicate 13 dewEvent) []).1.solvedPrimeMover = some "INCONCLUSIVE" ∧
    |painSum (TerminaCore.runTermina (TerminaCore.init quietCatalyst)
        (List.replicate 13 dewEvent) []).1.dataBuffer| +
      |joySum (TerminaCore.runTermina (TerminaCore.init quietCatalyst)
        (List.replicate 13 dewEvent) []).1.dataBuffer| < 3 := by
  obtain ⟨m, hbuf, hent, hcyc, hsolved, hcat, hcount, hrun⟩ :=
    TerminaCore.runTermina_reachSolve (List.replicate 13 dewEvent) quietCatalyst []
      (by simp) rfl
  have hps : painSum (List.replicate 13 dewEvent) = 0 := by
    norm_num [painSum, dewEvent, List.replicate]
  have hjs : joySum (List.replicate 13 dewEvent) = 13/10 := by
    norm_num [joySum, dewEvent, List.replicate]
  have hbc : betrayalCount (List.replicate 13 dewEvent) = 0 := by
    norm_num [betrayalCount, dewEvent, List.replicate, List.filter]
  have hdc : deathCount (List.replicate 13 dewEvent) = 0 := by
    norm_num [deathCount, dewEvent, List.replicate, List.filter]
  have hes : ((List.replicate 13 dewEvent).map deltaEntropy).sum = 13/10 := by
    norm_num [deltaEntropy, dewEvent, List.replicate, abs_of_nonneg]
  have h1 : ¬(|joySum m.dataBuffer - painSum m.dataBuffer| < 0.000000001) := by
    rw [hbuf, hps, hjs]
    norm_num [abs_of_nonneg]
  have h2 : ¬(m.entropy > 66 ∨ |ratioOf m.dataBuffer| > 42) := by
    rw [hent, hes, hbuf, ratioOf, hbc, hdc, hjs, hps]
    norm_num [abs_of_nonneg]
  obtain ⟨hnone, hsolve1⟩ := TerminaCore.solvePrimeMover_success m h1 h2
  have hframe := TerminaCore.solvePrimeMover_fst_dataBuffer m
  rcases hsp : TerminaCore.solvePrimeMover m with ⟨s3, err⟩
  rw [hsp] at hnone hsolve1 hframe
  simp only at hnone hsolve1 hframe
  subst hnone
  rw [hrun, hsp]
  refine ⟨rfl, by simpa using hsolve1, ?_⟩
  simp only [TerminaCore.termina_pushLog_dataBuffer, hframe, hbuf, hps, hjs]
  norm_num [abs_of_nonneg]

/-- C1 (amended to variant A only): whenever variant A's `solvePrimum` is
invoked on a state whose buffer holds fewer than 3 events or with
`|painSum| + |joySum| < 3`, it fails with the classified error of code
"01" (DATA_INSUFFICIENT), regardless of all other state — the condition
dominates every other failure condition.  Variant B's `solvePrimeMover`
performs no such check at all (see the counterexample). -/
theorem C1_theorem (s : OmegaCore.OmegaState) (r : CycleRand)
    (h : s.dataBuffer.length < 3 ∨ |painSum s.dataBuffer| + |joySum s.dataBuffer| < 3) :
    (OmegaCore.solvePrimum s r).2 = some OmegaCore.dataInsufficientError ∧
      OmegaCore.dataInsufficientError.code = "01" :=
  ⟨OmegaCore.solvePrimum_insufficient s r h, rfl⟩

/-- C1 witness: a fresh variant-A engine (empty buffer) indeed fails with
code "01". -/
theorem C1_witness :
    (OmegaCore.solvePrimum (OmegaCore.init quietCatalyst) default).2 =
      some OmegaCore.dataInsufficientError ∧
      OmegaCore.dataInsufficientError.code = "01" :=
  C1_theorem (OmegaCore.init quietCatalyst) default (Or.inl (by simp [OmegaCore.init]))

theorem ratioOf_defaultEvents : ratioOf defaultEvents = -22/57 := by
  rw [ratioOf, painSum_defaultEvents, joySum_defaultEvents,
    deathCount_defaultEvents, betrayalCount_defaultEvents]
  norm_num

theorem not_insufficient_default :
    ¬(defaultEvents.length < 3 ∨ |painSum defaultEvents| + |joySum defaultEvents| < 3) := by
  rw [defaultEvents_length, painSum_defaultEvents, joySum_defaultEvents]
  norm_num [abs_of_nonneg]

theorem not_loop_default_A :
    ¬(|joySum defaultEvents - painSum defaultEvents| < 0.000001) := by
  rw [painSum_defaultEvents, joySum_defaultEvents]
  norm_num [abs_of_nonpos]

theorem not_loop_default_B :
    ¬(|joySum defaultEvents - painSum defaultEvents| < 0.000000001) := by
  rw [painSum_defaultEvents, joySum_defaultEvents]
  norm_num [abs_of_nonpos]

/-- C2: on a solve invocation where the DATA_INSUFFICIENT and
SELF_REFERENTIAL_LOOP conditions do not hold, the solve step fails with
the CONFLICTING_AXIOMS error (code "03" in variant A; the corresponding
`TerminaError` in variant B) iff `entropy > 66` or `|ratio| > 42` or
(variant A only) `destructionBias > 0.4 ∧ joySum > painSum`; otherwise it
sets the terminal state to "INCONCLUSIVE" — the only success value the
engine ever produces (on failure the terminal field is left unchanged). -/
theorem C2_theorem
    (sA : OmegaCore.OmegaState) (rA : CycleRand) (sB : TerminaCore.TerminaState)
    (hA1 : ¬(sA.dataBuffer.length < 3 ∨ |painSum sA.dataBuffer| + |joySum sA.dataBuffer| < 3))
    (hA2 : ¬(|joySum sA.dataBuffer - painSum sA.dataBuffer| < 0.000001))
    (hB1 : ¬(sB.dataBuffer.length < 3 ∨ |painSum sB.dataBuffer| + |joySum sB.dataBuffer| < 3))
    (hB2 : ¬(|joySum sB.dataBuffer - painSum sB.dataBuffer| < 0.000000001)) :
    (((OmegaCore.solvePrimum sA rA).2 = some OmegaCore.conflictingAxiomsError) ↔
      (sA.entropy > 66 ∨ |ratioOf sA.dataBuffer| > 42 ∨
        (sA.destructionBias > 0.4 ∧ joySum sA.dataBuffer > painSum sA.dataBuffer))) ∧
    ((OmegaCore.solvePrimum sA rA).2 = none →
      (OmegaCore.solvePrimum sA rA).1.solvedPrimum = some "INCONCLUSIVE") ∧
    (∀ e, (OmegaCore.solvePrimum sA rA).2 = some e →
      (OmegaCore.solvePrimum sA rA).1.solvedPrimum = sA.solvedPrimum) ∧
    (((TerminaCore.solvePrimeMover sB).2 = some { message := TerminaCore.contradictionMsg }) ↔
      (sB.entropy > 66 ∨ |ratioOf sB.dataBuffer| > 42)) ∧
    ((TerminaCore.solvePrimeMover sB).2 = none →
      (TerminaCore.solvePrimeMover sB).1.solvedPrimeMover = some "INCONCLUSIVE") ∧
    (∀ e, (TerminaCore.solvePrimeMover sB).2 = some e →
      (TerminaCore.solvePrimeMover sB).1.solvedPrimeMover = sB.solvedPrimeMover) := by
  refine ⟨⟨?_, ?_⟩, ?_, ?_, ⟨?_, ?_⟩, ?_, ?_⟩
  · intro h
    by_contra hc
    obtain ⟨hn, _⟩ := OmegaCore.solvePrimum_success sA rA hA1 hA2 hc
    rw [hn] at h
    simp at h
  · intro h3
    exact OmegaCore.solvePrimum_conflict sA rA hA1 hA2 h3
  · intro h
    exact OmegaCore.solvePrimum_solved_of_none sA rA h
  · intro e he
    exact OmegaCore.solvePrimum_solved_of_some sA rA (by rw [he]; simp)
  · intro h
    by_contra hc
    obtain ⟨hn, _⟩ := TerminaCore.solvePrimeMover_success sB hB2 hc
    rw [hn] at h
    simp at h
  · intro h3
    exact TerminaCore.solvePrimeMover_contradiction sB hB2 h3
  · intro h
    exact TerminaCore.solvePrimeMover_solved_of_none sB h
  · intro e he
    exact TerminaCore.solvePrimeMover_solved_of_some sB (by rw [he]; simp)

/-- C2 witness: on the (conflict-free) sample states holding the 13
default events, neither variant's solve step produces the
CONFLICTING_AXIOMS failure. -/
theorem C2_witness :
    ¬((OmegaCore.solvePrimum sampleOmegaState default).2 =
        some OmegaCore.conflictingAxiomsError) ∧
    ¬((TerminaCore.solvePrimeMover sampleTerminaState).2 =
        some { message := TerminaCore.contradictionMsg }) := by
  have h := C2_theorem sampleOmegaState default sampleTerminaState
    (by simpa [sampleOmegaState] using not_insufficient_default)
    (by simpa [sampleOmegaState] using not_loop_default_A)
    (by simpa [sampleTerminaState] using not_insufficient_default)
    (by simpa [sampleTerminaState] using not_loop_default_B)
  constructor
  · intro hc
    have h3 := h.1.mp hc
    rw [show sampleOmegaState.dataBuffer = defaultEvents from rfl,
      ratioOf_defaultEvents, show sampleOmegaState.entropy = 0 from rfl,
      show sampleOmegaState.destructionBias = 0 from rfl,
      painSum_defaultEvents, joySum_defaultEvents] at h3
    norm_num [abs_of_nonpos] at h3
  · intro hc
    have h3 := h.2.2.2.1.mp hc
    rw [show sampleTerminaState.dataBuffer = defaultEvents from rfl,
      ratioOf_defaultEvents, show sampleTerminaState.entropy = 0 from rfl] at h3
    norm_num [abs_of_nonpos] at h3

/-- C3: once past the DATA_INSUFFICIENT condition, if
`|joySum - painSum| < ε` — ε = 1e-6 in variant A, ε = 1e-9 in variant B —
the solve step fails with the SELF_REFERENTIAL_LOOP error (code "02" in
variant A, the division-by-zero `TerminaError` in variant B) and no
RATIO-COMPUTED log line is ever emitted: the ratio is not computed, so no
division by the near-zero denominator occurs. -/
theorem C3_theorem
    (sA : OmegaCore.OmegaState) (rA : CycleRand) (sB : TerminaCore.TerminaState)
    (hA1 : ¬(sA.dataBuffer.length < 3 ∨ |painSum sA.dataBuffer| + |joySum sA.dataBuffer| < 3))
    (hA2 : |joySum sA.dataBuffer - painSum sA.dataBuffer| < 0.000001)
    (hB1 : ¬(sB.dataBuffer.length < 3 ∨ |painSum sB.dataBuffer| + |joySum sB.dataBuffer| < 3))
    (hB2 : |joySum sB.dataBuffer - painSum sB.dataBuffer| < 0.000000001) :
    (OmegaCore.solvePrimum sA rA).2 = some OmegaCore.selfReferentialError ∧
    OmegaCore.selfReferentialError.code = "02" ∧
    countRatioLines (OmegaCore.solvePrimum sA rA).1.logLines =
      countRatioLines sA.logLines ∧
    (TerminaCore.solvePrimeMover sB).2 = some { message := TerminaCore.divZeroMsg } ∧
    countRatioLines (TerminaCore.solvePrimeMover sB).1.log =
      countRatioLines sB.log := by
  obtain ⟨hA, hAlog⟩ := OmegaCore.solvePrimum_loop sA rA hA1 hA2
  obtain ⟨hB, hBlog⟩ := TerminaCore.solvePrimeMover_divZero sB hB2
  refine ⟨hA, rfl, ?_, hB, ?_⟩
  · rw [hAlog]
    simp [LogLine.isRatioLine]
  · rw [hBlog]
    simp [LogLine.isRatioLine]

/-- C3 witness: on states whose buffer holds three pain-1/joy-1 events
(sums 3 and 3, difference 0), both variants fail with the
SELF_REFERENTIAL_LOOP error and emit no RATIO-COMPUTED line. -/
theorem C3_witness :
    (OmegaCore.solvePrimum loopOmegaState default).2 =
      some OmegaCore.selfReferentialError ∧
    countRatioLines (OmegaCore.solvePrimum loopOmegaState default).1.logLines = 0 ∧
    (TerminaCore.solvePrimeMover loopTerminaState).2 =
      some { message := TerminaCore.divZeroMsg } := by
  have hps : painSum (List.replicate 3 balancedEvent) = 3 := by
    norm_num [painSum, balancedEvent, List.replicate]
  have hjs : joySum (List.replicate 3 balancedEvent) = 3 := by
    norm_num [joySum, balancedEvent, List.replicate]
  have h := C3_theorem loopOmegaState default loopTerminaState
    (by
      rw [show loopOmegaState.dataBuffer = List.replicate 3 balancedEvent from rfl,
        hps, hjs]
      norm_num [abs_of_nonneg])
    (by
      rw [show loopOmegaState.dataBuffer = List.replicate 3 balancedEvent from rfl,
        hps, hjs]
      norm_num)
    (by
      rw [show loopTerminaState.dataBuffer = List.replicate 3 balancedEvent from rfl,
        hps, hjs]
      norm_num [abs_of_nonneg])
    (by
      rw [show loopTerminaState.dataBuffer = List.replicate 3 balancedEvent from rfl,
        hps, hjs]
      norm_num)
  refine ⟨h.1, ?_, h.2.2.2.1⟩
  have := h.2.2.1
  rwa [show countRatioLines loopOmegaState.logLines = 0 from rfl] at this

theorem entropySum_perm_default {l : List WorldEvent} (h : l.Perm defaultEvents) :
    (l.map deltaEntropy).sum = 149/2 :=
  (entropySum_perm h).trans entropySum_defaultEvents

/-- C4: for every permutation of the 13 default events, running 13 cycles
with noise amplitude 0 yields the same aggregates (painSum 41.5, joySum
13, 4 deaths, 3 betrayals) and the same final entropy 74.5 regardless of
order, and the solve step invoked at cycle 13 fails with the
CONFLICTING_AXIOMS error (entropy 74.5 > 66) in both variants — the same
classification in every order, determined by the aggregate formula alone. -/
theorem C4_theorem (l : List WorldEvent) (h : l.Perm defaultEvents)
    (c : Catalyst) (hc : c.emotionalNoise = 0) (rsA rsB : List CycleRand) :
    painSum (OmegaCore.runOmega (OmegaCore.init c) l rsA).1.dataBuffer = 83/2 ∧
    joySum (OmegaCore.runOmega (OmegaCore.init c) l rsA).1.dataBuffer = 13 ∧
    deathCount (OmegaCore.runOmega (OmegaCore.init c) l rsA).1.dataBuffer = 4 ∧
    betrayalCount (OmegaCore.runOmega (OmegaCore.init c) l rsA).1.dataBuffer = 3 ∧
    (OmegaCore.runOmega (OmegaCore.init c) l rsA).1.entropy = 149/2 ∧
    (OmegaCore.runOmega (OmegaCore.init c) l rsA).2 =
      some OmegaCore.conflictingAxiomsError ∧
    painSum (TerminaCore.runTermina (TerminaCore.init c) l rsB).1.dataBuffer = 83/2 ∧
    joySum (TerminaCore.runTermina (TerminaCore.init c) l rsB).1.dataBuffer = 13 ∧
    deathCount (TerminaCore.runTermina (TerminaCore.init c) l rsB).1.dataBuffer = 4 ∧
    betrayalCount (TerminaCore.runTermina (TerminaCore.init c) l rsB).1.dataBuffer = 3 ∧
    (TerminaCore.runTermina (TerminaCore.init c) l rsB).1.entropy = 149/2 ∧
    (TerminaCore.runTermina (TerminaCore.init c) l rsB).2 =
      some { message := TerminaCore.contradictionMsg } := by
  have hlen : l.length = 13 := h.length_eq.trans defaultEvents_length
  have hps : painSum l = 83/2 := (painSum_perm h).trans painSum_defaultEvents
  have hjs : joySum l = 13 := (joySum_perm h).trans joySum_defaultEvents
  have hdc : deathCount l = 4 := (deathCount_perm h).trans deathCount_defaultEvents
  have hbc : betrayalCount l = 3 := (betrayalCount_perm h).trans betrayalCount_defaultEvents
  have hes : (l.map deltaEntropy).sum = 149/2 := entropySum_perm_default h
  obtain ⟨mA, hAbuf, hAent, hAcyc, hAsolved, hAcat, hAcount, hArun⟩ :=
    OmegaCore.runOmega_reachSolve l c rsA hlen hc
  obtain ⟨mB, hBbuf, hBent, hBcyc, hBsolved, hBcat, hBcount, hBrun⟩ :=
    TerminaCore.runTermina_reachSolve l c rsB hlen hc
  have hA1 : ¬(mA.dataBuffer.length < 3 ∨
      |painSum mA.dataBuffer| + |joySum mA.dataBuffer| < 3) := by
    rw [hAbuf, hlen, hps, hjs]
    norm_num [abs_of_nonneg]
  have hA2 : ¬(|joySum mA.dataBuffer - painSum mA.dataBuffer| < 0.000001) := by
    rw [hAbuf, hps, hjs]
    norm_num [abs_of_nonpos]
  have hA3 : mA.entropy > 66 ∨ |ratioOf mA.dataBuffer| > 42 ∨
      (mA.destructionBias > 0.4 ∧ joySum mA.dataBuffer > painSum mA.dataBuffer) :=
    Or.inl (by rw [hAent, hes]; norm_num)
  have hAerr := OmegaCore.solvePrimum_conflict mA ((rsA.drop 12).headD default) hA1 hA2 hA3
  have hAfr := OmegaCore.solvePrimum_fst_dataBuffer mA ((rsA.drop 12).headD default)
  have hAfe := OmegaCore.solvePrimum_fst_entropy mA ((rsA.drop 12).headD default)
  rcases hAsp : OmegaCore.solvePrimum mA ((rsA.drop 12).headD default) with ⟨sA3, errA⟩
  rw [hAsp] at hAerr hAfr hAfe
  simp only at hAerr hAfr hAfe
  subst hAerr
  have hAres : OmegaCore.runOmega (OmegaCore.init c) l rsA =
      (sA3, some OmegaCore.conflictingAxiomsError) := by rw [hArun, hAsp]
  have hB2 : ¬(|joySum mB.dataBuffer - painSum mB.dataBuffer| < 0.000000001) := by
    rw [hBbuf, hps, hjs]
    norm_num [abs_of_nonpos]
  have hB3 : mB.entropy > 66 ∨ |ratioOf mB.dataBuffer| > 42 :=
    Or.inl (by rw [hBent, hes]; norm_num)
  have hBerr := TerminaCore.solvePrimeMover_contradiction mB hB2 hB3
  have hBfr := TerminaCore.solvePrimeMover_fst_dataBuffer mB
  have hBfe := TerminaCore.solvePrimeMover_fst_entropy mB
  rcases hBsp : TerminaCore.solvePrimeMover mB with ⟨sB3, errB⟩
  rw [hBsp] at hBerr hBfr hBfe
  simp only at hBerr hBfr hBfe
  subst hBerr
  have hBres : TerminaCore.runTermina (TerminaCore.init c) l rsB =
      (sB3, some { message := TerminaCore.contradictionMsg }) := by rw [hBrun, hBsp]
  rw [hAres, hBres]
  exact ⟨by rw [hAfr, hAbuf, hps], by rw [hAfr, hAbuf, hjs], by rw [hAfr, hAbuf, hdc],
    by rw [hAfr, hAbuf, hbc], by rw [hAfe, hAent, hes], rfl,
    by rw [hBfr, hBbuf, hps], by rw [hBfr, hBbuf, hjs], by rw [hBfr, hBbuf, hdc],
    by rw [hBfr, hBbuf, hbc], by rw [hBfe, hBent, hes], rfl⟩

/-- C4 witness: the identity permutation of the default events, fed to
both drivers with a noiseless catalyst. -/
theorem C4_witness :
    (OmegaCore.runOmega (OmegaCore.init quietCatalyst) defaultEvents []).2 =
      some OmegaCore.conflictingAxiomsError ∧
    (OmegaCore.runOmega (OmegaCore.init quietCatalyst) defaultEvents []).1.entropy = 149/2 ∧
    (TerminaCore.runTermina (TerminaCore.init quietCatalyst) defaultEvents []).2 =
      some { message := TerminaCore.contradictionMsg } := by
  have h := C4_theorem defaultEvents (List.Perm.refl _) quietCatalyst rfl [] []
  exact ⟨h.2.2.2.2.2.1, h.2.2.2.2.1, h.2.2.2.2.2.2.2.2.2.2.2⟩

theorem OmegaCore.runOmega_of_none (l : List WorldEvent) :
    ∀ (s : OmegaCore.OmegaState) (rs : List CycleRand),
      (OmegaCore.runOmega s l rs).2 = none →
      (OmegaCore.runOmega s l rs).1.cyclesRun = s.cyclesRun + l.length ∧
      (OmegaCore.runOmega s l rs).1.dataBuffer.length = s.dataBuffer.length + l.length := by
  induction l with
  | nil => intro s rs _; simp
  | cons e es ih =>
    intro s rs h
    rw [OmegaCore.runOmega_cons] at h ⊢
    revert h
    rcases hrc : OmegaCore.runCycle s e (rs.headD default) with ⟨s1, err⟩
    intro h
    cases err with
    | none =>
      simp only at h ⊢
      have hc1 : s1.cyclesRun = s.cyclesRun + 1 := by
        have hg := OmegaCore.runCycle_fst_cyclesRun s e (rs.headD default)
        rw [hrc] at hg
        simpa using hg
      have hb1 : s1.dataBuffer.length = s.dataBuffer.length + 1 := by
        have hg := OmegaCore.runCycle_fst_dataBuffer s e (rs.headD default)
        rw [hrc] at hg
        simp only at hg
        rw [hg]
        simp
      obtain ⟨ih1, ih2⟩ := ih s1 rs.tail (by simpa using h)
      constructor
      · rw [ih1, hc1]; simp; omega
      · rw [ih2, hb1]; simp; omega
    | some e1 => simp at h

theorem TerminaCore.runTermina_of_none (l : List WorldEvent) :
    ∀ (s : TerminaCore.TerminaState) (rs : List CycleRand),
      (TerminaCore.runTermina s l rs).2 = none →
      (TerminaCore.runTermina s l rs).1.cyclesRun = s.cyclesRun + l.length ∧
      (TerminaCore.runTermina s l rs).1.dataBuffer.length = s.dataBuffer.length + l.length := by
  induction l with
  | nil => intro s rs _; simp
  | cons e es ih =>
    intro s rs h
    rw [TerminaCore.runTermina_cons] at h ⊢
    revert h
    rcases hrc : TerminaCore.runCycle s e (rs.headD default) with ⟨s1, err⟩
    intro h
    cases err with
    | none =>
      simp only at h ⊢
      have hc1 : s1.cyclesRun = s.cyclesRun + 1 := by
        have hg := TerminaCore.termina_runCycle_fst_cyclesRun s e (rs.headD default)
        rw [hrc] at hg
        simpa using hg
      have hb1 : s1.dataBuffer.length = s.dataBuffer.length + 1 := by
        have hg := TerminaCore.termina_runCycle_fst_dataBuffer s e (rs.headD default)
        rw [hrc] at hg
        simp only at hg
        rw [hg]
        simp
      obtain ⟨ih1, ih2⟩ := ih s1 rs.tail (by simpa using h)
      constructor
      · rw [ih1, hc1]; simp; omega
      · rw [ih2, hb1]; simp; omega
    | some e1 => simp at h

/-- C5 counterexample: the claim asserts the solve step fires only at the
cycle where the counter reaches 13, "never at any later cycle even if the
caller continues feeding events".  But `runCycle` tests
`cyclesRun >= maxCyclesBeforeBreak`, not equality: feeding 14 pain-1
events (noise 0) through variant B's driver makes the cycle-13 solve
succeed (INCONCLUSIVE) and then invokes the solve step AGAIN at cycle 14 —
the final log holds two SOLVE lines and the run ends at cyclesRun 14 with
no failure. -/
theorem C5_counterexample :
    countSolve (TerminaCore.runTermina (TerminaCore.init quietCatalyst)
      (List.replicate 14 unitPainEvent) []).1.log = 2 ∧
    (TerminaCore.runTermina (TerminaCore.init quietCatalyst)
      (List.replicate 14 unitPainEvent) []).2 = none ∧
    (TerminaCore.runTermina (TerminaCore.init quietCatalyst)
      (List.replicate 14 unitPainEvent) []).1.cyclesRun = 14 := by
  have hps : painSum (List.replicate 13 unitPainEvent) = 13 := by
    norm_num [painSum, unitPainEvent, List.replicate]
  have hjs : joySum (List.replicate 13 unitPainEvent) = 0 := by
    norm_num [joySum, unitPainEvent, List.replicate]
  have hbc : betrayalCount (List.replicate 13 unitPainEvent) = 0 := by
    norm_num [betrayalCount, unitPainEvent, List.replicate, List.filter]
  have hdc : deathCount (List.replicate 13 unitPainEvent) = 0 := by
    norm_num [deathCount, unitPainEvent, List.replicate, List.filter]
  have hes : ((List.replicate 13 unitPainEvent).map deltaEntropy).sum = 13 := by
    norm_num [deltaEntropy, unitPainEvent, List.replicate, abs_of_nonneg]
  obtain ⟨m, hbuf, hent, hcyc, hsolved, hcat, hcount, hrun⟩ :=
    TerminaCore.runTermina_reachSolve (List.replicate 13 unitPainEvent) quietCatalyst []
      (by simp) rfl
  have h1 : ¬(|joySum m.dataBuffer - painSum m.dataBuffer| < 0.000000001) := by
    rw [hbuf, hps, hjs]
    norm_num [abs_of_nonpos]
  have h2 : ¬(m.entropy > 66 ∨ |ratioOf m.dataBuffer| > 42) := by
    rw [hent, hes, hbuf, ratioOf, hbc, hdc, hjs, hps]
    norm_num [abs_of_nonpos]
  obtain ⟨hnone, _⟩ := TerminaCore.solvePrimeMover_success m h1 h2
  have hf_buf := TerminaCore.solvePrimeMover_fst_dataBuffer m
  have hf_ent := TerminaCore.solvePrimeMover_fst_entropy m
  have hf_cyc := TerminaCore.solvePrimeMover_fst_cyclesRun m
  have hf_cat := TerminaCore.solvePrimeMover_fst_catalyst m
  have hf_cnt := TerminaCore.solvePrimeMover_fst_countSolve m
  rcases hsp : TerminaCore.solvePrimeMover m with ⟨s3, err⟩
  rw [hsp] at hnone hf_buf hf_ent hf_cyc hf_cat hf_cnt
  simp only at hnone hf_buf hf_ent hf_cyc hf_cat hf_cnt
  subst hnone
  have hres13 : TerminaCore.runTermina (TerminaCore.init quietCatalyst)
      (List.replicate 13 unitPainEvent) [] =
      (TerminaCore.pushLog s3 .cycleEnd, none) := by
    rw [hrun, hsp]
  have happ := TerminaCore.runTermina_append (List.replicate 13 unitPainEvent)
    [unitPainEvent] (TerminaCore.init quietCatalyst) [] (by rw [hres13])
  rw [hres13] at happ
  have h14 : List.replicate 14 unitPainEvent =
      List.replicate 13 unitPainEvent ++ [unitPainEvent] := by
    rw [← List.replicate_succ']
  set s' : TerminaCore.TerminaState := TerminaCore.pushLog s3 .cycleEnd with hs'
  have hscyc : s'.cyclesRun = 13 := by
    rw [hs', TerminaCore.termina_pushLog_cyclesRun, hf_cyc, hcyc]
  have hrun14 : TerminaCore.runTermina (TerminaCore.init quietCatalyst)
      (List.replicate 14 unitPainEvent) [] =
      TerminaCore.runTermina s' [unitPainEvent] [] := by
    rw [h14, happ]
    simp
  rw [hrun14, TerminaCore.runTermina_cons,
    TerminaCore.termina_runCycle_solve s' unitPainEvent _ (by rw [hscyc]; simp [maxCyclesBeforeBreak])]
  set m2 : TerminaCore.TerminaState := TerminaCore.preSolve s' unitPainEvent
    (List.headD [] default) with hm2
  have hm2buf : m2.dataBuffer = List.replicate 14 unitPainEvent := by
    rw [hm2, TerminaCore.termina_preSolve_dataBuffer, hs', TerminaCore.termina_pushLog_dataBuffer,
      hf_buf, hbuf, ← List.replicate_succ']
  have hm2ent : m2.entropy = 14 := by
    rw [hm2, TerminaCore.termina_preSolve_entropy_noiseFree _ _ _
      (by rw [hs', TerminaCore.termina_pushLog_catalyst, hf_cat, hcat]; rfl)]
    rw [hs', TerminaCore.termina_pushLog_entropy, hf_ent, hent, hes]
    norm_num [deltaEntropy, unitPainEvent, abs_of_nonneg]
  have hm2cnt : countSolve m2.log = 1 := by
    rw [hm2, TerminaCore.termina_preSolve_countSolve, hs', TerminaCore.pushLog_log]
    simp [LogLine.isSolveAttempt]
    rw [hf_cnt, hcount]
  have hps14 : painSum (List.replicate 14 unitPainEvent) = 14 := by
    norm_num [painSum, unitPainEvent, List.replicate]
  have hjs14 : joySum (List.replicate 14 unitPainEvent) = 0 := by
    norm_num [joySum, unitPainEvent, List.replicate]
  have hbc14 : betrayalCount (List.replicate 14 unitPainEvent) = 0 := by
    norm_num [betrayalCount, unitPainEvent, List.replicate, List.filter]
  have hdc14 : deathCount (List.replicate 14 unitPainEvent) = 0 := by
    norm_num [deathCount, unitPainEvent, List.replicate, List.filter]
  have h1' : ¬(|joySum m2.dataBuffer - painSum m2.dataBuffer| < 0.000000001) := by
    rw [hm2buf, hps14, hjs14]
    norm_num [abs_of_nonpos]
  have h2' : ¬(m2.entropy > 66 ∨ |ratioOf m2.dataBuffer| > 42) := by
    rw [hm2ent, hm2buf, ratioOf, hbc14, hdc14, hjs14, hps14]
    norm_num [abs_of_nonpos]
  obtain ⟨hnone2, _⟩ := TerminaCore.solvePrimeMover_success m2 h1' h2'
  have hg_cnt := TerminaCore.solvePrimeMover_fst_countSolve m2
  have hg_cyc := TerminaCore.solvePrimeMover_fst_cyclesRun m2
  rcases hsp2 : TerminaCore.solvePrimeMover m2 with ⟨s4, err2⟩
  rw [hsp2] at hnone2 hg_cnt hg_cyc
  simp only at hnone2 hg_cnt hg_cyc
  subst hnone2
  refine ⟨?_, rfl, ?_⟩
  · show countSolve (TerminaCore.pushLog s4 LogLine.cycleEnd).log = 2
    rw [TerminaCore.pushLog_log, countSolve_append, hg_cnt, hm2cnt]
    simp [LogLine.isSolveAttempt]
  · show (TerminaCore.pushLog s4 LogLine.cycleEnd).cyclesRun = 14
    rw [TerminaCore.termina_pushLog_cyclesRun, hg_cyc, hm2, TerminaCore.termina_preSolve_cyclesRun, hscyc]

/-- C5 (amended): at every observation point, `cyclesRun` equals the
number of `runCycle` invocations so far, each of which ingests exactly one
event; and the solve step is invoked at every cycle whose counter is ≥ 13
(`maxCyclesBeforeBreak`) — hence exactly once when the run stops at cycle
13 (the reference driver) or a failure aborts it there, but again at each
later cycle if the caller keeps feeding events, since the guard is `>=`,
not equality. -/
theorem C5_theorem :
    (∀ (s : OmegaCore.OmegaState) (e : WorldEvent) (r : CycleRand),
      (OmegaCore.runCycle s e r).1.cyclesRun = s.cyclesRun + 1 ∧
      (OmegaCore.runCycle s e r).1.dataBuffer = s.dataBuffer ++ [e] ∧
      countSolve (OmegaCore.runCycle s e r).1.logLines = countSolve s.logLines +
        (if s.cyclesRun + 1 ≥ maxCyclesBeforeBreak then 1 else 0)) ∧
    (∀ (s : TerminaCore.TerminaState) (e : WorldEvent) (r : CycleRand),
      (TerminaCore.runCycle s e r).1.cyclesRun = s.cyclesRun + 1 ∧
      (TerminaCore.runCycle s e r).1.dataBuffer = s.dataBuffer ++ [e] ∧
      countSolve (TerminaCore.runCycle s e r).1.log = countSolve s.log +
        (if s.cyclesRun + 1 ≥ maxCyclesBeforeBreak then 1 else 0)) ∧
    (∀ (c : Catalyst) (l : List WorldEvent) (rs : List CycleRand),
      (OmegaCore.runOmega (OmegaCore.init c) l rs).2 = none →
      (OmegaCore.runOmega (OmegaCore.init c) l rs).1.cyclesRun = l.length ∧
      (OmegaCore.runOmega (OmegaCore.init c) l rs).1.dataBuffer.length = l.length) ∧
    (∀ (c : Catalyst) (l : List WorldEvent) (rs : List CycleRand),
      (TerminaCore.runTermina (TerminaCore.init c) l rs).2 = none →
      (TerminaCore.runTermina (TerminaCore.init c) l rs).1.cyclesRun = l.length ∧
      (TerminaCore.runTermina (TerminaCore.init c) l rs).1.dataBuffer.length = l.length) := by
  refine ⟨?_, ?_, ?_, ?_⟩
  · intro s e r
    exact ⟨OmegaCore.runCycle_fst_cyclesRun s e r, OmegaCore.runCycle_fst_dataBuffer s e r,
      OmegaCore.runCycle_countSolve s e r⟩
  · intro s e r
    exact ⟨TerminaCore.termina_runCycle_fst_cyclesRun s e r, TerminaCore.termina_runCycle_fst_dataBuffer s e r,
      TerminaCore.termina_runCycle_countSolve s e r⟩
  · intro c l rs h
    obtain ⟨h1, h2⟩ := OmegaCore.runOmega_of_none l (OmegaCore.init c) rs h
    constructor
    · rw [h1]; simp [OmegaCore.init]
    · rw [h2]; simp [OmegaCore.init]
  · intro c l rs h
    obtain ⟨h1, h2⟩ := TerminaCore.runTermina_of_none l (TerminaCore.init c) rs h
    constructor
    · rw [h1]; simp [TerminaCore.init]
    · rw [h2]; simp [TerminaCore.init]

/-- C5 witness: one variant-A cycle on a concrete 13-event state (counter
reaches 13 → one solve attempt), and a one-event variant-B fresh run
(counter 1, buffer 1, no solve). -/
theorem C5_witness :
    (OmegaCore.runCycle sampleOmegaState dewEvent default).1.cyclesRun = 14 ∧
    countSolve (OmegaCore.runCycle sampleOmegaState dewEvent default).1.logLines = 1 ∧
    (TerminaCore.runTermina (TerminaCore.init quietCatalyst) [dewEvent] []).1.cyclesRun = 1 ∧
    (TerminaCore.runTermina (TerminaCore.init quietCatalyst) [dewEvent] []).1.dataBuffer.length = 1 := by
  obtain ⟨hA, _, hC, hD⟩ := C5_theorem
  obtain ⟨h1, _, h3⟩ := hA sampleOmegaState dewEvent default
  have hnone : (TerminaCore.runTermina (TerminaCore.init quietCatalyst) [dewEvent] []).2 = none := by
    rw [TerminaCore.runTermina_cons,
      TerminaCore.termina_runCycle_noSolve _ _ _ (by simp [TerminaCore.init, maxCyclesBeforeBreak])]
    rfl
  obtain ⟨h4, h5⟩ := hD quietCatalyst [dewEvent] [] hnone
  refine ⟨by rw [h1]; rfl, ?_, by simpa using h4, by simpa using h5⟩
  rw [h3]
  norm_num [sampleOmegaState, countSolve, maxCyclesBeforeBreak]

/-- C6: in both variants, `ingestEvent` sets
`wrath := max 0 (wrath + deltaWrath + noise)` and
`entropy := entropy + max 0 (deltaEntropy + 0.25*|noise|)`, with
`deltaWrath = pain + (2 if betrayal) - (0.5 if kindness)`,
`deltaEntropy = |pain| + |joy| + (5 if death)`, and
`noise = emotionalNoise * u` for the uniform draw `u ∈ [-1,1]`, so
`|noise| ≤ emotionalNoise`. -/
theorem C6_theorem (sA : OmegaCore.OmegaState) (sB : TerminaCore.TerminaState)
    (e : WorldEvent) (r : CycleRand) (hu : |r.u| ≤ 1)
    (hA : 0 ≤ sA.catalyst.emotionalNoise) (hB : 0 ≤ sB.catalyst.emotionalNoise) :
    (OmegaCore.ingestEvent sA e r).wrath =
      max 0 (sA.wrath + (e.pain + (if e.betrayal then 2 else 0) -
        (if e.kindness then 0.5 else 0)) + sA.catalyst.emotionalNoise * r.u) ∧
    (OmegaCore.ingestEvent sA e r).entropy =
      sA.entropy + max 0 ((|e.pain| + |e.joy| + (if e.death then 5 else 0)) +
        |sA.catalyst.emotionalNoise * r.u| * 0.25) ∧
    |sA.catalyst.emotionalNoise * r.u| ≤ sA.catalyst.emotionalNoise ∧
    (TerminaCore.ingestEvent sB e r).wrath =
      max 0 (sB.wrath + (e.pain + (if e.betrayal then 2 else 0) -
        (if e.kindness then 0.5 else 0)) + sB.catalyst.emotionalNoise * r.u) ∧
    (TerminaCore.ingestEvent sB e r).entropy =
      sB.entropy + max 0 ((|e.pain| + |e.joy| + (if e.death then 5 else 0)) +
        |sB.catalyst.emotionalNoise * r.u| * 0.25) ∧
    |sB.catalyst.emotionalNoise * r.u| ≤ sB.catalyst.emotionalNoise := by
  have hbound : ∀ a : ℚ, 0 ≤ a → |a * r.u| ≤ a := by
    intro a ha
    calc |a * r.u| = a * |r.u| := by rw [abs_mul, abs_of_nonneg ha]
    _ ≤ a * 1 := mul_le_mul_of_nonneg_left hu ha
    _ = a := mul_one a
  exact ⟨by rw [OmegaCore.ingestEvent_wrath, deltaWrath],
    by rw [OmegaCore.ingestEvent_entropy, deltaEntropy],
    hbound _ hA,
    by rw [TerminaCore.termina_ingestEvent_wrath, deltaWrath],
    by rw [TerminaCore.termina_ingestEvent_entropy, deltaEntropy],
    hbound _ hB⟩

/-- C6 witness: the update formulas and the noise bound at a concrete
state, event and draw. -/
theorem C6_witness :
    (OmegaCore.ingestEvent sampleOmegaState dewEvent default).wrath =
      max 0 (sampleOmegaState.wrath + (dewEvent.pain + (if dewEvent.betrayal then 2 else 0) -
        (if dewEvent.kindness then 0.5 else 0)) +
        sampleOmegaState.catalyst.emotionalNoise * (default : CycleRand).u) ∧
    |sampleOmegaState.catalyst.emotionalNoise * (default : CycleRand).u| ≤
      sampleOmegaState.catalyst.emotionalNoise := by
  have h := C6_theorem sampleOmegaState sampleTerminaState dewEvent default
    (by show |(0:ℚ)| ≤ 1; norm_num)
    (by show (0:ℚ) ≤ 0; norm_num)
    (by show (0:ℚ) ≤ 0; norm_num)
  exact ⟨h.1, h.2.2.1⟩

/-- C7: wrath is non-negative after every `ingestEvent` call, in both
variants, for any prior state, any event attributes and any noise draw. -/
theorem C7_theorem (sA : OmegaCore.OmegaState) (sB : TerminaCore.TerminaState)
    (e : WorldEvent) (r : CycleRand) :
    0 ≤ (OmegaCore.ingestEvent sA e r).wrath ∧
    0 ≤ (TerminaCore.ingestEvent sB e r).wrath := by
  constructor
  · rw [OmegaCore.ingestEvent_wrath]
    exact le_max_left 0 _
  · rw [TerminaCore.termina_ingestEvent_wrath]
    exact le_max_left 0 _

/-- C8: entropy is monotonically non-decreasing: every operation of either
engine — ingest, partial inference, instability check and the solve step —
leaves entropy equal or larger, for any event attributes and noise draw. -/
theorem C8_theorem (sA : OmegaCore.OmegaState) (sB : TerminaCore.TerminaState)
    (e : WorldEvent) (r : CycleRand) :
    sA.entropy ≤ (OmegaCore.ingestEvent sA e r).entropy ∧
    sA.entropy ≤ (OmegaCore.attemptPartialInference sA r).entropy ∧
    sA.entropy ≤ (OmegaCore.checkForInstability sA r).entropy ∧
    sA.entropy ≤ (OmegaCore.solvePrimum sA r).1.entropy ∧
    sB.entropy ≤ (TerminaCore.ingestEvent sB e r).entropy ∧
    sB.entropy ≤ (TerminaCore.attemptPartialInference sB r).entropy ∧
    sB.entropy ≤ (TerminaCore.checkForInstability sB r).entropy ∧
    sB.entropy ≤ (TerminaCore.solvePrimeMover sB).1.entropy := by
  refine ⟨?_, by simp, by simp, by simp, ?_, by simp, by simp, by simp⟩
  · rw [OmegaCore.ingestEvent_entropy]
    exact le_add_of_nonneg_right (le_max_left 0 _)
  · rw [TerminaCore.termina_ingestEvent_entropy]
    exact le_add_of_nonneg_right (le_max_left 0 _)

/-- C9: in variant A, after every `ingestEvent` update `destructionBias`
lies in [0,1] and `alignmentDrift` lies in [-1,1], for any prior state and
any event attribute magnitudes. -/
theorem C9_theorem (s : OmegaCore.OmegaState) (e : WorldEvent) (r : CycleRand) :
    0 ≤ (OmegaCore.ingestEvent s e r).destructionBias ∧
    (OmegaCore.ingestEvent s e r).destructionBias ≤ 1 ∧
    -1 ≤ (OmegaCore.ingestEvent s e r).alignmentDrift ∧
    (OmegaCore.ingestEvent s e r).alignmentDrift ≤ 1 := by
  rw [OmegaCore.ingestEvent_destructionBias, OmegaCore.ingestEvent_alignmentDrift]
  refine ⟨le_max_left 0 _, max_le (by norm_num) (min_le_left 1 _),
    le_max_left (-1) _, max_le (by norm_num) (min_le_left 1 _)⟩

/-- C10: the solve step is read-only over the engine's numeric state and
buffer: in both variants it leaves wrath, entropy, (variant A)
destructionBias and alignmentDrift, dataBuffer, cyclesRun and the catalyst
unchanged and only appends log lines; when it throws a classified failure
the terminal field is left unchanged — in particular it remains `none`
(null) if it was `none` before the call. -/
theorem C10_theorem (sA : OmegaCore.OmegaState) (rA : CycleRand)
    (sB : TerminaCore.TerminaState) :
    (OmegaCore.solvePrimum sA rA).1.wrath = sA.wrath ∧
    (OmegaCore.solvePrimum sA rA).1.entropy = sA.entropy ∧
    (OmegaCore.solvePrimum sA rA).1.destructionBias = sA.destructionBias ∧
    (OmegaCore.solvePrimum sA rA).1.alignmentDrift = sA.alignmentDrift ∧
    (OmegaCore.solvePrimum sA rA).1.dataBuffer = sA.dataBuffer ∧
    (OmegaCore.solvePrimum sA rA).1.cyclesRun = sA.cyclesRun ∧
    (OmegaCore.solvePrimum sA rA).1.catalyst = sA.catalyst ∧
    (∃ t, (OmegaCore.solvePrimum sA rA).1.logLines = sA.logLines ++ t) ∧
    (∀ e, (OmegaCore.solvePrimum sA rA).2 = some e →
      (OmegaCore.solvePrimum sA rA).1.solvedPrimum = sA.solvedPrimum) ∧
    ((OmegaCore.solvePrimum sA rA).2 ≠ none → sA.solvedPrimum = none →
      (OmegaCore.solvePrimum sA rA).1.solvedPrimum = none) ∧
    (TerminaCore.solvePrimeMover sB).1.wrath = sB.wrath ∧
    (TerminaCore.solvePrimeMover sB).1.entropy = sB.entropy ∧
    (TerminaCore.solvePrimeMover sB).1.dataBuffer = sB.dataBuffer ∧
    (TerminaCore.solvePrimeMover sB).1.cyclesRun = sB.cyclesRun ∧
    (TerminaCore.solvePrimeMover sB).1.catalyst = sB.catalyst ∧
    (∃ t, (TerminaCore.solvePrimeMover sB).1.log = sB.log ++ t) ∧
    (∀ e, (TerminaCore.solvePrimeMover sB).2 = some e →
      (TerminaCore.solvePrimeMover sB).1.solvedPrimeMover = sB.solvedPrimeMover) ∧
    ((TerminaCore.solvePrimeMover sB).2 ≠ none → sB.solvedPrimeMover = none →
      (TerminaCore.solvePrimeMover sB).1.solvedPrimeMover = none) := by
  refine ⟨by simp, by simp, by simp, by simp, by simp, by simp, by simp,
    OmegaCore.solvePrimum_fst_logLines sA rA, ?_, ?_,
    by simp, by simp, by simp, by simp, by simp,
    TerminaCore.solvePrimeMover_fst_log sB, ?_, ?_⟩
  · intro e he
    exact OmegaCore.solvePrimum_solved_of_some sA rA (by rw [he]; simp)
  · intro hne hnull
    rw [OmegaCore.solvePrimum_solved_of_some sA rA hne, hnull]
  · intro e he
    exact TerminaCore.solvePrimeMover_solved_of_some sB (by rw [he]; simp)
  · intro hne hnull
    rw [TerminaCore.solvePrimeMover_solved_of_some sB hne, hnull]

/-- C10 witness: on the joy-pain-cancelling states both solve steps throw,
all scalar fields and the buffer are unchanged, and the terminal field
stays null. -/
theorem C10_witness :
    (OmegaCore.solvePrimum loopOmegaState default).1.wrath = loopOmegaState.wrath ∧
    (OmegaCore.solvePrimum loopOmegaState default).1.dataBuffer = loopOmegaState.dataBuffer ∧
    (OmegaCore.solvePrimum loopOmegaState default).1.solvedPrimum = none ∧
    (TerminaCore.solvePrimeMover loopTerminaState).1.solvedPrimeMover = none := by
  have hps : painSum (List.replicate 3 balancedEvent) = 3 := by
    norm_num [painSum, balancedEvent, List.replicate]
  have hjs : joySum (List.replicate 3 balancedEvent) = 3 := by
    norm_num [joySum, balancedEvent, List.replicate]
  have h := C10_theorem loopOmegaState default loopTerminaState
  have hAerr : (OmegaCore.solvePrimum loopOmegaState default).2 =
      some OmegaCore.selfReferentialError :=
    (OmegaCore.solvePrimum_loop loopOmegaState default
      (by
        rw [show loopOmegaState.dataBuffer = List.replicate 3 balancedEvent from rfl,
          hps, hjs]
        norm_num [abs_of_nonneg])
      (by
        rw [show loopOmegaState.dataBuffer = List.replicate 3 balancedEvent from rfl,
          hps, hjs]
        norm_num)).1
  have hBerr : (TerminaCore.solvePrimeMover loopTerminaState).2 =
      some { message := TerminaCore.divZeroMsg } :=
    (TerminaCore.solvePrimeMover_divZero loopTerminaState
      (by
        rw [show loopTerminaState.dataBuffer = List.replicate 3 balancedEvent from rfl,
          hps, hjs]
        norm_num)).1
  refine ⟨h.1, h.2.2.2.2.1, ?_, ?_⟩
  · exact h.2.2.2.2.2.2.2.2.2.1 (by rw [hAerr]; simp) rfl
  · exact h.2.2.2.2.2.2.2.2.2.2.2.2.2.2.2.2.2 (by rw [hBerr]; simp) rfl
